import Mathlib

/-!
Verification of the NearestPlaceFinder places-discovery pipeline.

The definitions below are shallow embeddings of the JavaScript service code
(`placesService` and the directions page). JavaScript numbers are modelled as
rationals (`ℚ`), except for the Haversine geometry claims which are settled
over the reals. Transcendental operations (`Math.sin`, `Math.cos`,
`Math.sqrt`, `Math.atan2`, `Math.PI`) are abstracted as a record of operations
`MathOps α`, instantiated with the real functions where the claim is about
real geometry. Ambient `Math.random` is modelled as an explicit stream
`random : ℕ → ℚ` together with a cursor that each call advances; functions
whose source never calls `Math.random` do not consume the stream. Network
and sensor I/O are modelled as oracle parameters, and thrown JavaScript
exceptions as `Except` values.
-/

namespace NPF

/-- A place record: union of the fields produced by the OSM aggregator, the
verified mock generator and the legacy deterministic mock generator. -/
structure Place where
  id : String
  name : String
  category : String
  categoryName : String
  icon : String
  lat : ℚ
  lng : ℚ
  distance : ℚ
  address : String
  phone : Option String := none
  website : Option String := none
  opening_hours : Option String := none
  rating : ℚ := 0
  type : String
  city : Option String := none
  state : Option String := none
  country : Option String := none
  verified : Bool := false
  isPopular : Bool := false
  deriving DecidableEq, Repr

/-- One entry of the `PLACE_CATEGORIES` table: display name, icon and
Overpass match tags. Each `"key=value"` string of the source is represented
as the pair `(key, value)` (the source splits the string on `=` before
comparing). -/
structure Category where
  name : String
  icon : String
  tags : List (String × String)
  deriving DecidableEq, Repr

/-- The `PLACE_CATEGORIES` constant, in object-literal insertion order. -/
def PLACE_CATEGORIES : List (String × Category) :=
  [ ("restaurant", ⟨"Restaurants & Food", "🍽️", [("amenity", "restaurant"), ("amenity", "fast_food"), ("cuisine", "indian")]⟩)
  , ("cafe", ⟨"Cafes & Tea Stalls", "☕", [("amenity", "cafe"), ("shop", "tea")]⟩)
  , ("lodging", ⟨"Hotels & Lodging", "🏨", [("tourism", "hotel"), ("tourism", "guest_house")]⟩)
  , ("gas_station", ⟨"Petrol Pumps", "⛽", [("amenity", "fuel")]⟩)
  , ("shopping", ⟨"Shopping & Markets", "🛍️", [("shop", "supermarket"), ("shop", "convenience"), ("amenity", "marketplace")]⟩)
  , ("hospital", ⟨"Healthcare & Pharmacy", "🏥", [("amenity", "hospital"), ("amenity", "pharmacy"), ("amenity", "clinic")]⟩)
  , ("bank", ⟨"Banks & ATMs", "🏦", [("amenity", "bank"), ("amenity", "atm")]⟩)
  , ("transport", ⟨"Transportation", "🚌", [("amenity", "bus_station"), ("railway", "station"), ("public_transport", "station")]⟩)
  , ("entertainment", ⟨"Parks & Attractions", "🎬", [("leisure", "park"), ("tourism", "attraction"), ("amenity", "cinema")]⟩)
  , ("education", ⟨"Schools & Colleges", "🎓", [("amenity", "school"), ("amenity", "college"), ("amenity", "university")]⟩)
  , ("religious", ⟨"Temples & Religious", "🕉️", [("amenity", "place_of_worship"), ("building", "temple")]⟩)
  , ("government", ⟨"Government Offices", "🏛️", [("office", "government"), ("amenity", "townhall"), ("office", "administrative")]⟩)
  , ("automotive", ⟨"Auto Services", "🔧", [("shop", "car_repair"), ("amenity", "car_wash"), ("shop", "car")]⟩)
  , ("beauty", ⟨"Salons & Spas", "💄", [("shop", "hairdresser"), ("shop", "beauty"), ("leisure", "spa")]⟩)
  , ("electronics", ⟨"Electronics & Mobile", "📱", [("shop", "electronics"), ("shop", "mobile_phone"), ("shop", "computer")]⟩)
  , ("clothing", ⟨"Clothing & Textiles", "👕", [("shop", "clothes"), ("shop", "tailor"), ("shop", "fabric")]⟩)
  , ("grocery", ⟨"Grocery & Provisions", "🛒", [("shop", "grocery"), ("shop", "general"), ("shop", "convenience")]⟩)
  , ("medical", ⟨"Medical & Dental", "⚕️", [("amenity", "doctors"), ("amenity", "dentist"), ("healthcare", "clinic")]⟩)
  , ("sports", ⟨"Sports & Fitness", "⚽", [("leisure", "sports_centre"), ("leisure", "fitness_centre"), ("sport", "cricket")]⟩)
  ]

/-- The keys of the category table, in order. -/
def categoryKeys : List String := PLACE_CATEGORIES.map Prod.fst

/-- `obj[k] || []` on a category-keyed object modelled as an association list. -/
def lookupPlaces (m : List (String × List Place)) (k : String) : List Place :=
  (m.lookup k).getD []

/-- The comparison key of `.sort((a, b) => a.distance - b.distance)`. -/
def leDist (a b : Place) : Prop := a.distance ≤ b.distance

instance : DecidableRel leDist := fun a b => inferInstanceAs (Decidable (a.distance ≤ b.distance))

instance : IsTotal Place leDist := ⟨fun a b => le_total a.distance b.distance⟩

instance : IsTrans Place leDist := ⟨fun _ _ _ h h' => le_trans h h'⟩

/-- `array.sort((a, b) => a.distance - b.distance)`: a stable
comparator sort ascending by distance. -/
def sortByDistance (l : List Place) : List Place := l.insertionSort leDist

/-- The proximity test of the merge engine:
`Math.abs(realPlace.lat - mockPlace.lat) < 0.002 &&
 Math.abs(realPlace.lng - mockPlace.lng) < 0.002`. -/
def nearB (r m : Place) : Bool :=
  decide (|r.lat - m.lat| < 0.002) && decide (|r.lng - m.lng| < 0.002)

/-- Per-category body of `mergeRealAndMockData`: start from the live places,
top up with synthetic places that are not near any live place until the
target minimum of 6 is reached, fall back to all synthetic places when still
empty, then sort by distance and truncate to 10. -/
def mergeCategory (realPlaces mockPlaces : List Place) : List Place :=
  let combined := realPlaces
  let targetMinimum := 6
  let combined2 :=
    if combined.length < targetMinimum then
      let needed := targetMinimum - combined.length
      let additionalMock :=
        (mockPlaces.filter (fun mockPlace =>
          !(combined.any (fun realPlace => nearB realPlace mockPlace)))).take needed
      combined ++ additionalMock
    else combined
  let combined3 := if combined2.length = 0 then mockPlaces else combined2
  (sortByDistance combined3).take 10

/-- `mergeRealAndMockData(realData, mockData)`: merge the two category-keyed
maps category by category over the whole category table. -/
def mergeRealAndMockData (realData mockData : List (String × List Place)) :
    List (String × List Place) :=
  PLACE_CATEGORIES.map (fun c => (c.1, mergeCategory (lookupPlaces realData c.1) (lookupPlaces mockData c.1)))

/-- The separation property asserted by claim C1: no two entries of the list
are within 0.002 degrees of each other on both axes. -/
def ClaimSeparated (l : List Place) : Prop :=
  l.Pairwise (fun p q => ¬(|p.lat - q.lat| < 0.002 ∧ |p.lng - q.lng| < 0.002))

instance (l : List Place) : Decidable (ClaimSeparated l) := by
  unfold ClaimSeparated; infer_instance

/-- A raw OSM element's tag object, as an association list; `none` models a
missing `tags` property. JavaScript property access `tags[k]` is the
association-list lookup. -/
abbrev Tags := List (String × String)

/-- Truthy property access `tags.k`: a missing key and an empty-string value
are both JavaScript-falsy. -/
def truthyLookup (tags : Tags) (k : String) : Option String :=
  match tags.lookup k with
  | some v => if v = "" then none else some v
  | none => none

/-- `tags[key] === value` for one match tag of the category table. -/
def matchesTag (tags : Tags) (t : String × String) : Bool :=
  tags.lookup t.1 == some t.2

/-- The `amenityMappings` fallback dictionary of `determineCategoryFromTags`. -/
def amenityMappings : List (String × String) :=
  [ ("restaurant", "restaurant"), ("fast_food", "restaurant"), ("cafe", "cafe")
  , ("fuel", "gas_station"), ("hospital", "hospital"), ("pharmacy", "hospital")
  , ("clinic", "hospital"), ("bank", "bank"), ("atm", "bank")
  , ("school", "education"), ("college", "education"), ("university", "education")
  , ("place_of_worship", "religious"), ("cinema", "entertainment")
  , ("theatre", "entertainment") ]

/-- The `shopMappings` fallback dictionary of `determineCategoryFromTags`. -/
def shopMappings : List (String × String) :=
  [ ("supermarket", "shopping"), ("convenience", "shopping"), ("mall", "shopping")
  , ("clothes", "clothing"), ("electronics", "electronics")
  , ("mobile_phone", "electronics"), ("car_repair", "automotive")
  , ("hairdresser", "beauty"), ("beauty", "beauty") ]

/-- The `tourismMappings` fallback dictionary of `determineCategoryFromTags`. -/
def tourismMappings : List (String × String) :=
  [ ("hotel", "lodging"), ("guest_house", "lodging"), ("hostel", "lodging")
  , ("attraction", "entertainment") ]

/-- The shop and tourism fallback blocks of `determineCategoryFromTags`: any
truthy `shop` tag yields its dictionary entry or defaults to `shopping`;
a truthy `tourism` tag yields its dictionary entry or nothing. -/
def shopOrTourismCategory (tags : Tags) : Option String :=
  match truthyLookup tags "shop" with
  | some s => some ((shopMappings.lookup s).getD "shopping")
  | none =>
    match truthyLookup tags "tourism" with
    | some t => tourismMappings.lookup t
    | none => none

/-- `determineCategoryFromTags(tags)`: first category of the table with an
exact `key=value` tag match, then the amenity dictionary, then the shop
block (with its `shopping` default), then the tourism dictionary. -/
def determineCategoryFromTags (tagsOpt : Option Tags) : Option String :=
  match tagsOpt with
  | none => none
  | some tags =>
    match PLACE_CATEGORIES.find? (fun e => e.2.tags.any (fun t => matchesTag tags t)) with
    | some e => some e.1
    | none =>
      match truthyLookup tags "amenity" with
      | some a =>
        match amenityMappings.lookup a with
        | some ck => some ck
        | none => shopOrTourismCategory tags
      | none => shopOrTourismCategory tags

/-- The claim's hypothesis on a raw element: its tags produce no exact
match against the category table and no entry of the amenity, shop or
tourism fallback dictionaries. -/
def MatchedByNoRule (tags : Tags) : Prop :=
  (∀ e ∈ PLACE_CATEGORIES, ∀ t ∈ e.2.tags, matchesTag tags t = false) ∧
    (truthyLookup tags "amenity").all (fun a => (amenityMappings.lookup a).isNone) = true ∧
    (truthyLookup tags "shop").all (fun s => (shopMappings.lookup s).isNone) = true ∧
    (truthyLookup tags "tourism").all (fun t => (tourismMappings.lookup t).isNone) = true

instance (tags : Tags) : Decidable (MatchedByNoRule tags) := by
  unfold MatchedByNoRule; infer_instance

/-- The transcendental operations of JavaScript `Math`, abstracted over the
number type. Claims about real geometry instantiate them with the real
functions; claims about control flow keep them abstract. -/
structure MathOps (α : Type) where
  sin : α → α
  cos : α → α
  sqrt : α → α
  atan2 : α → α → α
  pi : α

/-- `calculateDistance(lat1, lng1, lat2, lng2)`: Haversine distance with
Earth radius 6371 km, exactly as written in the source. -/
def calculateDistance {α : Type} [Field α] (ops : MathOps α)
    (lat1 lng1 lat2 lng2 : α) : α :=
  let R : α := 6371
  let dLat := (lat2 - lat1) * ops.pi / 180
  let dLng := (lng2 - lng1) * ops.pi / 180
  let a :=
    ops.sin (dLat / 2) * ops.sin (dLat / 2) +
      ops.cos (lat1 * ops.pi / 180) * ops.cos (lat2 * ops.pi / 180) *
        ops.sin (dLng / 2) * ops.sin (dLng / 2)
  let c := 2 * ops.atan2 (ops.sqrt a) (ops.sqrt (1 - a))
  R * c

/-- `Math.atan2` over the reals, with the full quadrant case analysis. -/
noncomputable def realAtan2 (y x : ℝ) : ℝ :=
  if 0 < x then Real.arctan (y / x)
  else if x < 0 ∧ 0 ≤ y then Real.arctan (y / x) + Real.pi
  else if x < 0 then Real.arctan (y / x) - Real.pi
  else if 0 < y then Real.pi / 2
  else if y < 0 then -(Real.pi / 2)
  else 0

/-- The real-number interpretation of JavaScript `Math`. -/
noncomputable def realOps : MathOps ℝ :=
  { sin := Real.sin, cos := Real.cos, sqrt := Real.sqrt,
    atan2 := realAtan2, pi := Real.pi }

/-- A sample rational interpretation of JavaScript `Math`, used only to
instantiate concrete witnesses; the sample functions satisfy the structural
properties the witnesses need (none — witnesses never rely on trigonometric
identities of the sample). -/
def sampleOps : MathOps ℚ :=
  { sin := id, cos := fun _ => 1, sqrt := id, atan2 := fun y _ => y, pi := 3 }

/-! ### Location acquisition (getCurrentLocation) -/

/-- The options object passed to `navigator.geolocation.getCurrentPosition`. -/
structure GeoOptions where
  enableHighAccuracy : Bool
  timeout : ℕ
  maximumAge : ℕ
  deriving DecidableEq, Repr

/-- Outcome of one sensor read: the success callback's coordinates, or the
error callback's `error.code` (1 permission denied, 2 position unavailable,
3 timeout, per the Geolocation API constants). -/
inductive SensorReply where
  | success (lat lng accuracy : ℚ)
  | failure (code : ℕ)
  deriving DecidableEq, Repr

/-- Whether a sensor reply invokes the error callback. -/
def SensorReply.isFailure : SensorReply → Bool
  | .success .. => false
  | .failure _ => true

/-- A resolved location fix, as the promise value of `getCurrentLocation`. -/
structure LocationFix where
  lat : ℚ
  lng : ℚ
  accuracy : ℚ
  method : String
  city : Option String := none
  deriving DecidableEq, Repr

/-- Tier A options: high accuracy, 5 s timeout, no cached reading. -/
def optsHighAccuracy : GeoOptions := ⟨true, 5000, 0⟩

/-- Tier B options: low accuracy, 3 s timeout, no cached reading. -/
def optsSecondTry : GeoOptions := ⟨false, 3000, 0⟩

/-- Tier C options: high accuracy, 15 s timeout, no cached reading. -/
def optsFinalGPS : GeoOptions := ⟨true, 15000, 0⟩

/-- The message built by the final error handler of the cascade, keyed by
the sensor error code. -/
def gpsErrorMessage (code : ℕ) : String :=
  if code = 1 then
    "GPS location access denied. Please allow location access in your browser settings and try again."
  else if code = 2 then
    "GPS location unavailable. Your device cannot determine GPS location. Please check your device settings."
  else if code = 3 then
    "GPS location request timed out. GPS is taking too long. Please try again or move to an area with better GPS signal."
  else
    "GPS location detection failed. Please try again or check your device location settings."

/-- The parsed payload of one IP-geolocation provider, after the per-provider
response-shape normalization. -/
structure IpData where
  lat : ℚ
  lng : ℚ
  city : String
  deriving DecidableEq, Repr

/-- `tryIPLocation`: walk the provider list; the first reply that is ok and
has truthy (nonzero) coordinates wins; reject after the list is exhausted.
`none` models a failed fetch, a non-ok response or an unparsable payload. -/
def tryIPLocation : List (Option IpData) → Except String LocationFix
  | [] => .error "Unable to determine your location. Please enter your address manually for accurate results."
  | none :: rest => tryIPLocation rest
  | some d :: rest =>
    if d.lat ≠ 0 ∧ d.lng ≠ 0 then
      .ok { lat := d.lat, lng := d.lng, accuracy := 5000,
            method := "ip_location", city := some d.city }
    else tryIPLocation rest

/-- `getCurrentLocation()`: the three-tier sensor cascade with IP fallback.
The sensor oracle gives the reply to the n-th `getCurrentPosition` call; the
first component of the result is the ordered trace of options objects the
cascade passed to the sensor API. -/
def getCurrentLocation (supported : Bool) (sensor : ℕ → SensorReply)
    (ipReplies : List (Option IpData)) :
    List GeoOptions × Except String LocationFix :=
  if !supported then ([], tryIPLocation ipReplies)
  else
    match sensor 0 with
    | .success lat lng acc =>
      ([optsHighAccuracy],
        .ok { lat := lat, lng := lng, accuracy := acc,
              method :=
                if acc ≤ 100 then "high_accuracy_gps"
                else if acc ≤ 1000 then "moderate_accuracy"
                else "gps_poor_accuracy" })
    | .failure _ =>
      match sensor 1 with
      | .success lat lng acc =>
        ([optsHighAccuracy, optsSecondTry],
          .ok { lat := lat, lng := lng, accuracy := acc,
                method := if acc ≤ 100 then "delayed_gps" else "cell_tower" })
      | .failure _ =>
        match sensor 2 with
        | .success lat lng acc =>
          ([optsHighAccuracy, optsSecondTry, optsFinalGPS],
            .ok { lat := lat, lng := lng, accuracy := acc, method := "gps_final_attempt" })
        | .failure code =>
          ([optsHighAccuracy, optsSecondTry, optsFinalGPS],
            .error (gpsErrorMessage code))

/-! ### Geocoding (geocodeAddress) -/

/-- A raw Nominatim search result; the numeric fields are the values the
source obtains through `parseFloat`. -/
structure NomSearchResult where
  lat : ℚ
  lon : ℚ
  display_name : String
  deriving DecidableEq, Repr

/-- A network request issued by the service layer, as structured data
(endpoint and the parameters the source interpolates into the URL). -/
inductive NetRequest where
  | nominatimSearch (query : String)
  | suggestSearch (query : String) (limit : ℕ) (viewbox : Option (ℚ × ℚ × ℚ × ℚ)) (bounded : Bool)
  | suggestSearchGlobal (query : String) (limit : ℕ)
  deriving DecidableEq, Repr

/-- The resolved value of `geocodeAddress`. -/
structure GeoResult where
  lat : ℚ
  lng : ℚ
  address : String
  display_name : String
  deriving DecidableEq, Repr

/-- `geocodeAddress(address)`: one country-scoped Nominatim search request is
always issued; a non-ok or failed response propagates as an error, an empty
result list throws `Address not found`, otherwise the first result wins. -/
def geocodeAddress (fetchReply : Except String (List NomSearchResult))
    (address : String) : List NetRequest × Except String GeoResult :=
  ([.nominatimSearch address],
    match fetchReply with
    | .error e => .error e
    | .ok data =>
      match data with
      | r :: _ =>
        .ok { lat := r.lat, lng := r.lon, address := r.display_name,
              display_name := r.display_name }
      | [] => .error "Address not found")

/-! ### Place suggestions (getPlaceSuggestions) -/

/-- The optional `near` argument of `getPlaceSuggestions`. -/
structure NearArg where
  lat : ℚ
  lng : ℚ
  radiusKm : Option ℚ
  deriving DecidableEq, Repr

/-- A raw Nominatim suggestion item. `cls` stands for the JavaScript `class`
property; `address` is `none` when the property is missing (the source
defaults it to `{}`); `importance` is `none` when `parseFloat` yields a
falsy value (the source defaults it to 0). -/
structure NomPlaceItem where
  place_id : ℤ
  name : Option String
  display_name : String
  address : Option Tags
  lat : ℚ
  lon : ℚ
  typ : String
  cls : String
  importance : Option ℚ
  osm_id : ℤ
  osm_type : String
  boundingbox : List String
  deriving DecidableEq, Repr

/-- A mapped suggestion, as returned to callers. -/
structure Suggestion where
  id : ℤ
  name : String
  shortName : String
  context : String
  lat : ℚ
  lng : ℚ
  typ : String
  cls : String
  importance : ℚ
  address : Tags
  osm_id : ℤ
  osm_type : String
  boundingbox : List String
  deriving DecidableEq, Repr

/-- First JavaScript-truthy string of a `||` chain. -/
def firstTruthy : List (Option String) → Option String
  | [] => none
  | x :: rest =>
    match x with
    | some s => if s = "" then firstTruthy rest else some s
    | none => firstTruthy rest

/-- The per-item mapping of `getPlaceSuggestions` over a Nominatim item. -/
def mapSuggestionItem (item : NomPlaceItem) : Suggestion :=
  let address := item.address.getD []
  let placeName :=
    (firstTruthy
      [ item.name
      , some ((item.display_name.splitOn ",").headD "")
      , truthyLookup address "city"
      , truthyLookup address "town"
      , truthyLookup address "village"
      , truthyLookup address "state" ]).getD "Unknown Place"
  let context :=
    (match truthyLookup address "city" with
     | some city => if city ≠ placeName then [city] else []
     | none => []) ++
    (match truthyLookup address "state" with
     | some st => if st ≠ placeName then [st] else []
     | none => []) ++
    (match truthyLookup address "country" with
     | some ctry => if ctry ≠ "India" then [ctry] else []
     | none => [])
  { id := item.place_id, name := item.display_name, shortName := placeName,
    context := String.intercalate ", " context,
    lat := item.lat, lng := item.lon, typ := item.typ, cls := item.cls,
    importance := item.importance.getD 0, address := address,
    osm_id := item.osm_id, osm_type := item.osm_type,
    boundingbox := item.boundingbox }

/-- Comparison key for the `near`-biased sort of suggestions decorated with
their `_dist` value. -/
def leSnd (a b : Suggestion × ℚ) : Prop := a.2 ≤ b.2

instance : DecidableRel leSnd := fun a b => inferInstanceAs (Decidable (a.2 ≤ b.2))

/-- Map raw items and, when `near` is given, sort them ascending by distance
to the bias center (decorate with `_dist`, stable sort, strip). -/
def processSuggestionItems (ops : MathOps ℚ) (near : Option NearArg)
    (data : List NomPlaceItem) : List Suggestion :=
  let mapped := data.map mapSuggestionItem
  match near with
  | some n =>
    ((mapped.map (fun it => (it, calculateDistance ops n.lat n.lng it.lat it.lng))).insertionSort
        leSnd).map Prod.fst
  | none => mapped

/-- The viewbox rectangle `(left, top, right, bottom)` computed from `near`;
`radiusKm` falls back to 25 when absent or JavaScript-falsy. -/
def suggestViewbox (ops : MathOps ℚ) (n : NearArg) : ℚ × ℚ × ℚ × ℚ :=
  let radiusKm := match n.radiusKm with
    | some r => if r = 0 then 25 else r
    | none => 25
  let latDelta := radiusKm / 111.32
  let lngDelta := radiusKm / (111.32 * ops.cos (n.lat * ops.pi / 180))
  (n.lng - lngDelta, n.lat + latDelta, n.lng + lngDelta, n.lat - latDelta)

/-- `getPlaceSuggestions(query, limit, near)`: short-circuit guard for null,
empty or single-character queries; otherwise one country-scoped search
(viewbox-bounded when `near` is given), an unscoped retry when it returns
nothing, and distance-biased sorting of the mapped items. The first
component is the ordered list of issued network requests. -/
def getPlaceSuggestions (ops : MathOps ℚ)
    (fetchMain fetchFallback : Except String (List NomPlaceItem))
    (query : Option String) (limit : ℕ) (near : Option NearArg) :
    List NetRequest × List Suggestion :=
  match query with
  | none => ([], [])
  | some q =>
    if q.length < 2 then ([], [])
    else
      let mainReq := NetRequest.suggestSearch q limit (near.map (suggestViewbox ops)) near.isSome
      match fetchMain with
      | .error _ => ([mainReq], [])
      | .ok data =>
        if data.isEmpty then
          let fbReq := NetRequest.suggestSearchGlobal q limit
          match fetchFallback with
          | .error _ => ([mainReq, fbReq], [])
          | .ok data2 =>
            if data2.isEmpty then ([mainReq, fbReq], [])
            else ([mainReq, fbReq], processSuggestionItems ops near data2)
        else ([mainReq], processSuggestionItems ops near data)

/-! ### Deterministic mock generator (getMockPlaces) -/

/-- `seedRandom(seed)`: the fractional part of `sin(seed) * 10000`. -/
def seedRandom (ops : MathOps ℚ) (seed : ℚ) : ℚ :=
  let x := ops.sin seed * 10000
  x - (⌊x⌋ : ℚ)

/-- `s.charCodeAt(0)` for the nonempty key strings of the category table. -/
def charCodeAt0 (s : String) : ℕ :=
  (s.toList.headD (Char.ofNat 0)).toNat

/-- JavaScript `x % 1` for the nonnegative seeds it is applied to. -/
def fract (q : ℚ) : ℚ := q - (⌊q⌋ : ℚ)

/-- The general area-name pool of `generateLocationBasedAddress`. -/
def allAreas : List String :=
  [ "MG Road", "Gandhi Nagar", "Sector 15", "Civil Lines", "Model Town", "Sadar Bazaar"
  , "Main Market", "Station Road", "Mall Road", "City Center", "Nehru Place", "Connaught Place"
  , "Rajouri Garden", "Lajpat Nagar", "Karol Bagh", "Janpath", "CP Market", "Khan Market"
  , "Vasant Vihar", "Defence Colony", "Greater Kailash", "Hauz Khas", "Saket", "Dwarka"
  , "Rohini", "Pitampura", "Janakpuri", "Laxmi Nagar", "Preet Vihar", "Mayur Vihar"
  , "Andheri", "Bandra", "Juhu", "Powai", "Malad", "Borivali", "Thane", "Vashi"
  , "Koramangala", "Indiranagar", "Whitefield", "Electronic City", "Marathahalli", "HSR Layout"
  , "T Nagar", "Anna Nagar", "Adyar", "Velachery", "Tambaram", "Chrompet" ]

/-- The coarse metro bounding-box classification used by the address and
name generators: city label and region-specific area pool. -/
def regionCityAreas (ops : MathOps ℚ) (lat lng : ℚ) : String × List String :=
  if 28.4 ≤ lat ∧ lat ≤ 28.9 ∧ 76.8 ≤ lng ∧ lng ≤ 77.5 then
    ("New Delhi",
      [ "Connaught Place", "Khan Market", "Karol Bagh", "Lajpat Nagar", "Defence Colony"
      , "Greater Kailash", "Saket", "Vasant Vihar", "Hauz Khas", "Nehru Place" ])
  else if 18.8 ≤ lat ∧ lat ≤ 19.3 ∧ 72.7 ≤ lng ∧ lng ≤ 73.2 then
    ("Mumbai",
      [ "Andheri West", "Bandra", "Juhu", "Powai", "Malad", "Borivali", "Thane", "Vashi"
      , "Colaba", "Fort" ])
  else if 12.8 ≤ lat ∧ lat ≤ 13.2 ∧ 77.4 ≤ lng ∧ lng ≤ 77.8 then
    ("Bengaluru",
      [ "Koramangala", "Indiranagar", "Whitefield", "Electronic City", "Marathahalli"
      , "HSR Layout", "BTM Layout", "Jayanagar" ])
  else if 13.0 ≤ lat ∧ lat ≤ 13.2 ∧ 80.1 ≤ lng ∧ lng ≤ 80.3 then
    ("Chennai",
      [ "T Nagar", "Anna Nagar", "Adyar", "Velachery", "Tambaram", "Chrompet", "Mylapore"
      , "Nungambakkam" ])
  else
    let cityNames :=
      [ "Agra", "Lucknow", "Kanpur", "Jaipur", "Indore", "Bhopal", "Patna", "Nagpur"
      , "Surat", "Vadodara", "Rajkot", "Coimbatore", "Madurai", "Kochi"
      , "Thiruvananthapuram", "Visakhapatnam", "Vijayawada", "Guntur", "Mysore", "Mangalore" ]
    let seed := |ops.sin (lat * lng * 100)| * 1000
    (cityNames.getD (⌊fract seed * (cityNames.length : ℚ)⌋.toNat) "", allAreas)

/-- `generateLocationBasedAddress(lat, lng, index)`. -/
def generateLocationBasedAddress (ops : MathOps ℚ) (lat lng : ℚ) (index : ℕ) : String :=
  let cityRegion := regionCityAreas ops lat lng
  let city := cityRegion.1
  let regionAreas := cityRegion.2
  let locationSeed := |ops.sin (lat * lng * (index : ℚ) * 100)| * 1000
  let houseNo : ℤ := ⌊fract locationSeed * 999⌋ + 1
  let areaIndex := (⌊fract (locationSeed * 2) * (regionAreas.length : ℚ)⌋).toNat
  let area := regionAreas.getD areaIndex ""
  let landmarks :=
    [ "Near Metro Station", "Near Bus Stop", "Near Hospital", "Near Mall", "Near Park"
    , "Main Road", "Market Area" ]
  let landmarkIndex := (⌊fract (locationSeed * 3) * (landmarks.length : ℚ)⌋).toNat
  let landmark := landmarks.getD landmarkIndex ""
  toString houseNo ++ ", " ++ area ++ ", " ++ landmark ++ ", " ++ city

/-- `generateIndianPhone(seed)`. -/
def generateIndianPhone (ops : MathOps ℚ) (seed : ℚ) : String :=
  let pfxs := ["+91-98", "+91-99", "+91-97", "+91-96", "+91-95", "+91-94"]
  let pfxIndex := (⌊seedRandom ops seed * (pfxs.length : ℚ)⌋).toNat
  let pfx := pfxs.getD pfxIndex ""
  let number : ℤ := ⌊seedRandom ops (seed + 100) * 90000000⌋ + 10000000
  pfx ++ (toString number).take 8

/-- `generateOpeningHours(seed)`. -/
def generateOpeningHours (ops : MathOps ℚ) (seed : ℚ) : String :=
  let hours :=
    [ "9:00 AM - 9:00 PM", "10:00 AM - 10:00 PM", "8:00 AM - 8:00 PM", "24 Hours"
    , "6:00 AM - 11:00 PM", "11:00 AM - 11:00 PM", "7:00 AM - 10:00 PM", "8:00 AM - 9:00 PM" ]
  hours.getD (⌊seedRandom ops seed * (hours.length : ℚ)⌋).toNat ""

/-- `name.toLowerCase().replace(/\s+/g, '')` of the website URL template. -/
def stripSpacesLower (s : String) : String :=
  ((s.toLower).toList.filter (fun c => !c.isWhitespace)).asString

/-- One place of `generateEnhancedMockData`'s loop body, at loop index `i`. -/
def enhancedMockPlace (ops : MathOps ℚ) (lat lng : ℚ) (categoryKey : String)
    (category : Category) (names : List String) (radius : ℚ) (locationSeed : ℚ)
    (i : ℕ) : Place :=
  let nameSeed := locationSeed + (i : ℚ) * 100 + (charCodeAt0 categoryKey : ℚ)
  let nameIndex := (⌊seedRandom ops nameSeed * (names.length : ℚ)⌋).toNat
  let randomName := names.getD nameIndex ""
  let angleSeed := locationSeed + (i : ℚ) * 137 + (⌊lat * 1000⌋ : ℚ)
  let distanceVariationSeed := locationSeed + (i : ℚ) * 73 + (⌊lng * 1000⌋ : ℚ)
  let angle := seedRandom ops angleSeed * 2 * ops.pi
  let maxDistance := min (radius * 0.8) 15
  let actualDistance := seedRandom ops distanceVariationSeed * maxDistance + 0.1
  let latOffset := actualDistance / 111.32 * ops.cos angle
  let lngOffset := actualDistance / (111.32 * ops.cos (lat * ops.pi / 180)) * ops.sin angle
  let placeLat := lat + latOffset
  let placeLng := lng + lngOffset
  let calculatedDistance := calculateDistance ops lat lng placeLat placeLng
  { id := "mock_" ++ categoryKey ++ "_" ++ toString (round (lat * 1000) : ℤ) ++ "_" ++
      toString (round (lng * 1000) : ℤ) ++ "_" ++ toString i,
    name := randomName ++ (if i > 0 then " " ++ toString (i + 1) else ""),
    category := categoryKey, categoryName := category.name, icon := category.icon,
    lat := placeLat, lng := placeLng,
    distance := ((round (calculatedDistance * 100) : ℤ) : ℚ) / 100,
    address := generateLocationBasedAddress ops placeLat placeLng i,
    phone := if seedRandom ops (nameSeed + 10) > 0.3 then
        some (generateIndianPhone ops nameSeed) else none,
    website := if seedRandom ops (nameSeed + 20) > 0.7 then
        some ("https://www." ++ stripSpacesLower randomName ++ ".com") else none,
    opening_hours := some (generateOpeningHours ops nameSeed),
    rating := ((round ((seedRandom ops (nameSeed + 30) * 2 + 3) * 10) : ℤ) : ℚ) / 10,
    type := "mock",
    isPopular := seedRandom ops (nameSeed + 40) > 0.7 }

/-- `generateEnhancedMockData(lat, lng, categoryKey, category, names, radius)`:
the deterministic pseudo-random per-category generator. The `random`
parameter is the ambient `Math.random` stream of the JavaScript environment;
the source never calls `Math.random` here, so the stream is never consumed. -/
def generateEnhancedMockData (ops : MathOps ℚ) (random : ℕ → ℚ) (lat lng : ℚ)
    (categoryKey : String) (category : Category) (names : List String)
    (radius : ℚ) : List Place :=
  let locationSeed := |ops.sin (lat * lng * 10000) + ops.cos (lat + lng) * 1000| * 1000
  let placeCount :=
    (⌊seedRandom ops (locationSeed + (charCodeAt0 categoryKey : ℚ) * 100) * 4⌋).toNat + 6
  let places := (List.range placeCount).map
    (enhancedMockPlace ops lat lng categoryKey category names radius locationSeed)
  sortByDistance places

/-- The base business-name pool of `getMockPlaces`. -/
def baseNames : List (String × List String) :=
  [ ("restaurant", ["Punjabi Dhaba", "South Indian Corner", "Biryani House", "Dosa Plaza", "Thali Restaurant", "Chinese Dragon", "Pizza Corner", "Burger King", "KFC", "McDonald\u0027s", "Domino\u0027s", "Subway", "Local Dhaba", "Family Restaurant", "Food Court", "Snack Center"])
  , ("cafe", ["Chai Point", "Coffee Day", "Barista", "Starbucks", "Tea Junction", "Café Mocha", "Brew & Beans", "Tea Time", "Coffee House", "Chai Tapri", "Tea Stall", "Coffee Corner"])
  , ("lodging", ["Hotel Taj", "OYO Rooms", "Treebo Hotel", "Guest House", "Lodge Palace", "Resort Inn", "Dharamshala", "Backpacker Hostel", "Budget Hotel", "Luxury Stay", "Inn & Suites"])
  , ("gas_station", ["Indian Oil", "HP Petrol Pump", "Bharat Petroleum", "Reliance Petrol", "Shell Station", "Essar Oil", "Fuel Station", "Petrol Bunk"])
  , ("shopping", ["Big Bazaar", "Reliance Fresh", "More Supermarket", "Spencer\u0027s", "Kirana Store", "General Store", "City Mall", "Local Market", "Super Market", "Mini Mart", "Grocery Store", "Provision Store"])
  , ("hospital", ["Apollo Hospital", "Fortis Healthcare", "Max Hospital", "AIIMS", "Government Hospital", "Nursing Home", "Medical Center", "City Clinic", "Health Center", "Multispecialty Hospital"])
  , ("bank", ["State Bank of India", "HDFC Bank", "ICICI Bank", "Axis Bank", "Punjab National Bank", "Bank of Baroda", "Canara Bank", "ATM Center", "Union Bank", "Yes Bank", "Kotak Bank"])
  , ("transport", ["Railway Station", "Bus Stand", "Metro Station", "Auto Stand", "Taxi Stand", "Airport", "ISBT", "Bus Terminal", "Train Station"])
  , ("entertainment", ["PVR Cinemas", "INOX", "Cinepolis", "City Park", "Garden", "Museum", "Art Gallery", "Amusement Park", "Fun City", "Entertainment Zone"])
  , ("education", ["Government School", "Private School", "CBSE School", "College", "University", "Coaching Center", "Tuition Classes", "Study Center", "Academy"])
  , ("religious", ["Hanuman Temple", "Shiva Temple", "Gurudwara", "Mosque", "Church", "Ashram", "Mandir", "Dargah", "Monastery"])
  , ("government", ["Collectorate", "Tehsil Office", "Municipal Office", "Post Office", "Police Station", "Court", "Government Office", "District Office"])
  , ("automotive", ["Car Service Center", "Garage", "Mechanic Shop", "Spare Parts", "Car Wash", "Tyre Shop", "Auto Repair", "Service Station"])
  , ("beauty", ["Beauty Parlour", "Hair Salon", "Spa Center", "Barber Shop", "Unisex Salon", "Bridal Makeup", "Beauty Studio", "Wellness Center"])
  , ("electronics", ["Mobile Shop", "Electronics Store", "Computer Shop", "Laptop Repair", "Mobile Repair", "Gadget Store", "Tech Store", "Electronics Hub"])
  , ("clothing", ["Cloth Shop", "Tailor", "Boutique", "Saree Center", "Garment Store", "Fashion Hub", "Textile Shop", "Dress Material"])
  , ("grocery", ["Kirana Store", "General Store", "Provision Store", "Grocery Shop", "Supermarket", "Mini Mart", "Daily Needs", "Convenience Store"])
  , ("medical", ["Doctor Clinic", "Dental Clinic", "Medical Store", "Pathology Lab", "X-Ray Center", "Pharmacy", "Diagnostic Center", "Health Clinic"])
  , ("sports", ["Fitness Gym", "Sports Club", "Cricket Ground", "Badminton Court", "Football Field", "Swimming Pool", "Sports Complex", "Fitness Center"]) ]

/-- The region-specific extra business names of `getMockPlaces`. -/
def regionalNamesFor (lat lng : ℚ) : List (String × List String) :=
  if 28.4 ≤ lat ∧ lat ≤ 28.9 ∧ 76.8 ≤ lng ∧ lng ≤ 77.5 then
    [ ("restaurant", ["Paranthe Wali Gali", "Karim\u0027s", "Al Jawahar", "Chandni Chowk Dhaba"])
    , ("cafe", ["Indian Coffee House", "Cafe Coffee Day CP", "Starbucks CP"])
    , ("shopping", ["Connaught Place Market", "Karol Bagh Market", "Lajpat Nagar Market"]) ]
  else if 18.8 ≤ lat ∧ lat ≤ 19.3 ∧ 72.7 ≤ lng ∧ lng ≤ 73.2 then
    [ ("restaurant", ["Trishna", "Leopold Cafe", "Britannia & Co", "Bademiya"])
    , ("cafe", ["Cafe Mocha", "Theobroma", "Cafe Coffee Day Bandra"])
    , ("shopping", ["Linking Road", "Colaba Causeway", "Crawford Market"]) ]
  else if 12.8 ≤ lat ∧ lat ≤ 13.2 ∧ 77.4 ≤ lng ∧ lng ≤ 77.8 then
    [ ("restaurant", ["MTR", "Vidyarthi Bhavan", "Koshy\u0027s", "Corner House"])
    , ("cafe", ["Third Wave Coffee", "Blue Tokai", "Cafe Coffee Day Brigade"])
    , ("shopping", ["Commercial Street", "Brigade Road", "Chickpet Market"]) ]
  else []

/-- `getLocationSpecificNames(lat, lng)`: the base pool with the regional
names prepended for the matching metro area. -/
def getLocationSpecificNames (lat lng : ℚ) : List (String × List String) :=
  let regional := regionalNamesFor lat lng
  baseNames.map (fun e =>
    match regional.lookup e.1 with
    | some rn => (e.1, rn ++ e.2)
    | none => e)

/-- `getMockPlaces(lat, lng, radius)`: the category-keyed deterministic mock
dataset. The `random` stream (ambient `Math.random`) is never consumed, as
in the source. -/
def getMockPlaces (ops : MathOps ℚ) (random : ℕ → ℚ) (lat lng : ℚ)
    (radius : ℚ) : List (String × List Place) :=
  let mockNames := getLocationSpecificNames lat lng
  PLACE_CATEGORIES.map (fun e =>
    (e.1,
      generateEnhancedMockData ops random lat lng e.1 e.2
        ((mockNames.lookup e.1).getD [e.2.name.dropRight 1]) radius))

/-! ### Route engine (fetchRealRoute / generateEnhancedMockRoute) -/

/-- One normalized turn-by-turn step of a route. -/
structure RouteStep where
  instruction : String
  distance : String
  duration : String
  maneuver : String
  deriving DecidableEq, Repr

/-- The normalized route object produced by `fetchRealRoute`. -/
structure RouteData where
  distance : String
  duration : ℤ
  steps : List RouteStep
  source : String
  deriving DecidableEq, Repr

/-- `x.toFixed(1)` for the nonnegative kilometre values it is applied to. -/
def toFixed1 (q : ℚ) : String :=
  let n : ℤ := round (q * 10)
  toString (n / 10) ++ "." ++ toString (n % 10)

/-- Whether `sub` occurs in `s` (JavaScript `s.includes(sub)`). -/
def containsSub (s sub : String) : Bool :=
  (s.splitOn sub).length > 1

/-- JavaScript `s.replace(pat, rep)` with a string pattern: first
occurrence only. -/
def replaceFirst (s pat rep : String) : String :=
  match s.splitOn pat with
  | [] => s
  | [x] => x
  | x :: rest => x ++ rep ++ String.intercalate pat rest

/-- `s.charAt(0).toUpperCase() + s.slice(1)`. -/
def capitalizeFirst (s : String) : String :=
  match s.toList with
  | [] => s
  | c :: rest => (c.toUpper :: rest).asString

/-- The `maneuverMap` canonical-phrase dictionary of `enhanceInstruction`. -/
def maneuverMap : List (String × String) :=
  [ ("turn-left", "Turn left"), ("turn-right", "Turn right")
  , ("turn-sharp-left", "Turn sharp left"), ("turn-sharp-right", "Turn sharp right")
  , ("turn-slight-left", "Turn slight left"), ("turn-slight-right", "Turn slight right")
  , ("continue", "Continue straight"), ("merge", "Merge")
  , ("ramp-left", "Take the ramp on the left"), ("ramp-right", "Take the ramp on the right")
  , ("fork-left", "Keep left at the fork"), ("fork-right", "Keep right at the fork")
  , ("roundabout-enter", "Enter the roundabout"), ("roundabout-exit", "Exit the roundabout")
  , ("uturn", "Make a U-turn"), ("depart", "Start your journey")
  , ("arrive", "You have arrived at your destination") ]

/-- `enhanceInstruction(instruction, maneuverType)`: canonical phrase for a
known maneuver code, otherwise lexical cleanup of the free-text instruction
(the source's global regex replaces, then single string replaces). -/
def enhanceInstruction (instruction : Option String) (maneuverType : Option String) : String :=
  match instruction with
  | none => "Continue straight"
  | some instr =>
    if instr = "" then "Continue straight"
    else
      let mapped :=
        match maneuverType with
        | some mt => if mt = "" then none else maneuverMap.lookup mt
        | none => none
      match mapped with
      | some phrase => phrase
      | none =>
        let enhanced := instr.toLower
        let enhanced := enhanced.replace "turn" "Turn"
        let enhanced := enhanced.replace "left" "left"
        let enhanced := enhanced.replace "right" "right"
        let enhanced := enhanced.replace "straight" "straight"
        let enhanced := enhanced.replace "continue" "Continue"
        let enhanced :=
          if containsSub enhanced "left" && !(containsSub enhanced "turn")
          then replaceFirst enhanced "left" "Turn left" else enhanced
        let enhanced :=
          if containsSub enhanced "right" && !(containsSub enhanced "turn")
          then replaceFirst enhanced "right" "Turn right" else enhanced
        capitalizeFirst enhanced

/-- `calculateBearing(lat1, lng1, lat2, lng2)`, normalized by
`(bearing + 360) % 360`; the remainder is floor-based, which agrees with the
JavaScript remainder on the nonnegative values produced here. -/
def calculateBearing (ops : MathOps ℚ) (lat1 lng1 lat2 lng2 : ℚ) : ℚ :=
  let dLng := (lng2 - lng1) * ops.pi / 180
  let lat1Rad := lat1 * ops.pi / 180
  let lat2Rad := lat2 * ops.pi / 180
  let y := ops.sin dLng * ops.cos lat2Rad
  let x := ops.cos lat1Rad * ops.sin lat2Rad - ops.sin lat1Rad * ops.cos lat2Rad * ops.cos dLng
  let bearing := ops.atan2 y x * 180 / ops.pi
  (bearing + 360) - 360 * (⌊(bearing + 360) / 360⌋ : ℚ)

/-- `getCardinalDirection(bearing)` for the normalized bearings passed by
the route generator. -/
def getCardinalDirection (bearing : ℚ) : String :=
  let directions :=
    ["north", "northeast", "east", "southeast", "south", "southwest", "west", "northwest"]
  directions.getD ((round (bearing / 45) : ℤ) % 8).toNat ""

/-- A start or destination point of a route; `name` is the destination
place's display name interpolated into instructions. -/
structure RoutePoint where
  lat : ℚ
  lng : ℚ
  name : String := ""
  deriving DecidableEq, Repr

/-- The cruising speed table `driving 50, cycling 15, walking 5`. -/
def modeSpeed (mode : String) : ℚ :=
  if mode = "driving" then 50 else if mode = "cycling" then 15 else 5

/-- The final-approach speed table `driving 30, cycling 10, walking 4`. -/
def modeFinalSpeed (mode : String) : ℚ :=
  if mode = "driving" then 30 else if mode = "cycling" then 10 else 4

/-- The mid-route turn phrase pool. -/
def turnPhrases : List String :=
  ["Turn right", "Continue straight", "Turn left", "Turn slight right", "Turn slight left"]

/-- The mode-specific road-type pool pick (one `Math.random()` call). -/
def roadTypeFor (random : ℕ → ℚ) (k : ℕ) (mode : String) : String :=
  if mode = "driving" then
    ["Main Street", "Highway", "Boulevard", "Avenue"].getD (⌊random k * 4⌋).toNat ""
  else if mode = "cycling" then
    ["bike path", "cycle lane", "shared road"].getD (⌊random k * 3⌋).toNat ""
  else
    ["sidewalk", "pedestrian path", "walkway"].getD (⌊random k * 3⌋).toNat ""

/-- The mid-route segment loop of `generateEnhancedMockRoute`: each segment
consumes two `Math.random()` values (turn phrase, road type), starting at
stream cursor `k`. -/
def mockMidSteps (random : ℕ → ℚ) (mode : String) (segmentDistance speed : ℚ) :
    ℕ → ℕ → List RouteStep
  | _, 0 => []
  | k, n + 1 =>
    let randomTurn := turnPhrases.getD (⌊random k * (turnPhrases.length : ℚ)⌋).toNat ""
    let roadType := roadTypeFor random (k + 1) mode
    { instruction := randomTurn ++ " onto " ++ roadType ++ " and continue for " ++
        toFixed1 segmentDistance ++ " km",
      distance := toFixed1 segmentDistance ++ " km",
      duration := toString (round (segmentDistance / speed * 60) : ℤ) ++ " min",
      maneuver := if containsSub randomTurn "right" then "turn-right"
        else if containsSub randomTurn "left" then "turn-left"
        else "continue" } ::
      mockMidSteps random mode segmentDistance speed (k + 2) n

/-- `generateEnhancedMockRoute(start, end, mode)`: the synthesized fallback
route (depart, initial turn, 0-3 mid segments for routes over 2 km, final
turn, arrive), tagged `enhanced_mock`. `random` is the ambient
`Math.random` stream, consumed from cursor `k` on. -/
def generateEnhancedMockRoute (ops : MathOps ℚ) (random : ℕ → ℚ) (k : ℕ)
    (start dest : RoutePoint) (mode : String) : RouteData :=
  let totalDistance := calculateDistance ops start.lat start.lng dest.lat dest.lng
  let bearing := calculateBearing ops start.lat start.lng dest.lat dest.lng
  let departStep : RouteStep :=
    { instruction := "Start " ++
        (if mode = "driving" then "driving" else if mode = "cycling" then "cycling" else "walking") ++
        " from your location",
      distance := "0 km", duration := "0 min", maneuver := "depart" }
  let direction := getCardinalDirection bearing
  let initialTurn :=
    if bearing > 180 then "Turn left"
    else if bearing < 180 ∧ bearing > 0 then "Turn right"
    else "Continue straight"
  let d2 := min 0.5 (totalDistance * 0.1)
  let step2 : RouteStep :=
    { instruction := initialTurn ++ " and head " ++ direction ++ " towards " ++ dest.name,
      distance := toFixed1 d2 ++ " km",
      duration := toString (round (d2 / modeSpeed mode * 60) : ℤ) ++ " min",
      maneuver :=
        if bearing > 180 then "turn-left"
        else if bearing < 180 ∧ bearing > 0 then "turn-right"
        else "continue" }
  let segments := if totalDistance > 2 then min 3 (⌊totalDistance / 2⌋).toNat else 0
  let midSteps :=
    mockMidSteps random mode (totalDistance * 0.6 / (segments : ℚ)) (modeSpeed mode) k segments
  let finalDistance := max 0.1 (totalDistance * 0.1)
  let finalTurn := if random (k + 2 * segments) > 0.5 then "Turn right" else "Turn left"
  let finalStep : RouteStep :=
    { instruction := finalTurn ++ " towards " ++ dest.name,
      distance := toFixed1 finalDistance ++ " km",
      duration := toString (round (finalDistance / modeFinalSpeed mode * 60) : ℤ) ++ " min",
      maneuver := if containsSub finalTurn "right" then "turn-right" else "turn-left" }
  let arriveStep : RouteStep :=
    { instruction := "Arrive at " ++ dest.name,
      distance := "0 km", duration := "0 min", maneuver := "arrive" }
  { distance := toFixed1 totalDistance,
    duration := round (totalDistance / modeSpeed mode * 60),
    steps := departStep :: step2 :: (midSteps ++ [finalStep, arriveStep]),
    source := "enhanced_mock" }

/-- One raw provider step (OpenRouteService shape): free-text instruction,
optional maneuver type, metre distance and second duration. -/
structure ORSStep where
  instruction : Option String
  maneuverType : Option String
  distance : ℚ
  duration : ℚ
  deriving DecidableEq, Repr

/-- A successful OpenRouteService route payload (`features[0]`'s first

segment); `none` at the call site models fetch failure, a non-ok response or
an empty `features` array — all of which fall through to the next provider. -/
structure ORSData where
  steps : List ORSStep
  distance : ℚ
  duration : ℚ
  deriving DecidableEq, Repr

/-- One raw OSRM step: optional free-text instruction and mandatory
maneuver type. -/
structure OSRMStep where
  instruction : Option String
  typ : String
  distance : ℚ
  duration : ℚ
  deriving DecidableEq, Repr

/-- A successful OSRM route payload (`routes[0]` and its first leg); `none`
models fetch failure, non-ok response or an empty `routes` array. -/
structure OSRMData where
  steps : List OSRMStep
  distance : ℚ
  duration : ℚ
  deriving DecidableEq, Repr

/-- JavaScript `a || dflt` on an optional string. -/
def jsOrStr (a : Option String) (dflt : String) : String :=
  match a with
  | some s => if s = "" then dflt else s
  | none => dflt

/-- `fetchRealRoute(start, end, mode)`: OpenRouteService first, then OSRM,
then the synthesized fallback route. The provider oracles are the
(already-parsed) payloads; `none` is any failed attempt. -/
def fetchRealRoute (ops : MathOps ℚ) (random : ℕ → ℚ) (k : ℕ)
    (ors : Option ORSData) (osrm : Option OSRMData)
    (start dest : RoutePoint) (mode : String) : RouteData :=
  match ors with
  | some d =>
    { distance := toFixed1 (d.distance / 1000),
      duration := round (d.duration / 60),
      steps := d.steps.map (fun st =>
        { instruction := enhanceInstruction st.instruction st.maneuverType,
          distance := toFixed1 (st.distance / 1000) ++ " km",
          duration := toString (round ((st.duration : ℚ) / 60) : ℤ) ++ " min",
          maneuver := jsOrStr st.maneuverType "continue" }),
      source := "openrouteservice" }
  | none =>
    match osrm with
    | some d =>
      { distance := toFixed1 (d.distance / 1000),
        duration := round (d.duration / 60),
        steps := d.steps.map (fun st =>
          { instruction := enhanceInstruction
              (some (jsOrStr st.instruction
                (st.typ ++ " for " ++ toFixed1 (st.distance / 1000) ++ " km")))
              (some st.typ),
            distance := toFixed1 (st.distance / 1000) ++ " km",
            duration := toString (round ((st.duration : ℚ) / 60) : ℤ) ++ " min",
            maneuver := st.typ }),
        source := "osrm" }
    | none => generateEnhancedMockRoute ops random k start dest mode

/-! ### Places search (fetchNearbyPlaces) -/

/-- A reverse-geocode payload `{address, city, state, country}`; each
component may be absent in the provider response. -/
structure AddrInfo where
  address : Option String := none
  city : Option String := none
  state : Option String := none
  country : Option String := none
  deriving DecidableEq, Repr

/-- A raw Overpass element: id, node coordinates or way/relation `center`
coordinates, and the tag object. -/
structure OSMElement where
  id : ℤ
  lat : Option ℚ := none
  lon : Option ℚ := none
  center : Option (ℚ × ℚ) := none
  tags : Option Tags := none
  typ : String := "node"
  deriving DecidableEq, Repr

/-- JavaScript truthiness of an optional number (`0` is falsy). -/
def truthyNum : Option ℚ → Option ℚ
  | some x => if x = 0 then none else some x
  | none => none

/-- `element.lat || (element.center && element.center.lat)` and the same for
longitude, followed by the `if (!elementLat || !elementLng) return` guard. -/
def elementCoords (el : OSMElement) : Option (ℚ × ℚ) :=
  let elat :=
    match truthyNum el.lat with
    | some x => some x
    | none => truthyNum (el.center.map Prod.fst)
  let elng :=
    match truthyNum el.lon with
    | some x => some x
    | none => truthyNum (el.center.map Prod.snd)
  match elat, elng with
  | some a, some b => some (a, b)
  | _, _ => none

/-- `formatOSMAddress(tags)`. -/
def formatOSMAddress (tags : Tags) : String :=
  let addressParts :=
    (match truthyLookup tags "addr:housenumber" with | some v => [v] | none => []) ++
    (match truthyLookup tags "addr:street" with | some v => [v] | none => []) ++
    (match truthyLookup tags "addr:suburb" with | some v => [v] | none => []) ++
    (match truthyLookup tags "addr:city" with | some v => [v] | none => []) ++
    (match truthyLookup tags "addr:state" with | some v => [v] | none => [])
  if addressParts ≠ [] then String.intercalate ", " addressParts
  else
    match truthyLookup tags "name" with
    | some n => "Near " ++ n
    | none =>
      match truthyLookup tags "addr:city" with
      | some c => c
      | none => "Address not available"

/-- The category-table entry for a key (total lookup with a dummy default
for the impossible missing case). -/
def catFor (categoryKey : String) : Category :=
  (PLACE_CATEGORIES.lookup categoryKey).getD ⟨"", "", []⟩

/-- One OSM place record built from a categorized element; `random k` is the
`Math.random()` value its rating consumes. -/
def osmPlace (random : ℕ → ℚ) (k : ℕ) (el : OSMElement) (categoryKey : String)
    (elat elng dist : ℚ) : Place :=
  let tags := el.tags.getD []
  let cat := catFor categoryKey
  { id := "osm_" ++ categoryKey ++ "_" ++ toString el.id,
    name := (firstTruthy
      [tags.lookup "name", tags.lookup "brand", tags.lookup "operator"]).getD
      (cat.name.dropRight 1),
    category := categoryKey, categoryName := cat.name, icon := cat.icon,
    lat := elat, lng := elng,
    distance := ((round (dist * 100) : ℤ) : ℚ) / 100,
    address := formatOSMAddress tags,
    phone := firstTruthy [tags.lookup "phone", tags.lookup "contact:phone"],
    website := firstTruthy [tags.lookup "website", tags.lookup "contact:website"],
    opening_hours := truthyLookup tags "opening_hours",
    rating := ((round ((random k * 1.5 + 3.5) * 10) : ℤ) : ℚ) / 10,
    type := "osm" }

/-- The element-categorization loop of `fetchRealPlacesFromOverpass`:
skip elements without truthy coordinates, beyond the radius, or matching no
category; each kept element consumes one `Math.random()` value. Produces the
kept `(categoryKey, place)` pairs in element order and the final cursor. -/
def processElements (ops : MathOps ℚ) (random : ℕ → ℚ) (lat lng radius : ℚ) :
    List OSMElement → ℕ → List (String × Place) × ℕ
  | [], k => ([], k)
  | el :: rest, k =>
    match elementCoords el with
    | none => processElements ops random lat lng radius rest k
    | some (elat, elng) =>
      let dist := calculateDistance ops lat lng elat elng
      if dist > radius then processElements ops random lat lng radius rest k
      else
        match determineCategoryFromTags el.tags with
        | none => processElements ops random lat lng radius rest k
        | some ck =>
          let p := osmPlace random k el ck elat elng dist
          let r := processElements ops random lat lng radius rest (k + 1)
          ((ck, p) :: r.1, r.2)

/-- The all-empty category-keyed result object. -/
def emptyResults : List (String × List Place) := PLACE_CATEGORIES.map (fun e => (e.1, []))

/-- `fetchRealPlacesFromOverpass(lat, lng, radius)`: walk the mirror list;
`none` models any failed attempt (HTTP error, timeout, abort); the first
mirror returning at least one element wins, its elements are categorized,
and each category is sorted by distance and truncated to 8; if every mirror
fails or returns no elements, the all-empty result is returned (no error). -/
def fetchRealPlacesFromOverpass (ops : MathOps ℚ) (random : ℕ → ℚ)
    (lat lng radius : ℚ) :
    List (Option (List OSMElement)) → ℕ → List (String × List Place) × ℕ
  | [], k => (emptyResults, k)
  | none :: rest, k => fetchRealPlacesFromOverpass ops random lat lng radius rest k
  | some elements :: rest, k =>
    if elements.isEmpty then fetchRealPlacesFromOverpass ops random lat lng radius rest k
    else
      let r := processElements ops random lat lng radius elements k
      (PLACE_CATEGORIES.map (fun e =>
        (e.1, (sortByDistance ((r.1.filter (fun pr => pr.1 = e.1)).map Prod.snd)).take 8)),
        r.2)

/-- The "already has a decent address" test of the enhancement pass. -/
def decentAddress (a : String) : Bool :=
  a ≠ "" && a ≠ "Address not available" && !(a.startsWith "Near")

/-- Apply one reverse-geocode result to a live place (only when the lookup
returned a truthy address). -/
def applyRevGeo (info : Option AddrInfo) (p : Place) : Place :=
  match info with
  | some i =>
    match i.address with
    | some addr =>
      if addr = "" then p
      else { p with address := addr, city := i.city, state := i.state, country := i.country }
    | none => p
  | none => p

/-- The inner loop of `enhanceRealPlacesWithAddresses` over one category's
places, with the running lookup count; the boolean reports the
`break outer` on reaching the 15-lookup cap. -/
def enhancePlacesInList (revGeo : ℚ → ℚ → Option AddrInfo) :
    List Place → ℕ → List Place × ℕ × Bool
  | [], lookups => ([], lookups, false)
  | p :: rest, lookups =>
    if decentAddress p.address then
      let r := enhancePlacesInList revGeo rest lookups
      (p :: r.1, r.2)
    else if lookups ≥ 15 then (p :: rest, lookups, true)
    else
      let p2 := applyRevGeo (revGeo p.lat p.lng) p
      let r := enhancePlacesInList revGeo rest (lookups + 1)
      (p2 :: r.1, r.2)

/-- `enhanceRealPlacesWithAddresses(realPlaces)`: at most 15 reverse lookups
across all categories; the cap aborts the whole pass. -/
def enhanceRealPlacesWithAddresses (revGeo : ℚ → ℚ → Option AddrInfo) :
    List (String × List Place) → ℕ → List (String × List Place)
  | [], _ => []
  | e :: rest, lookups =>
    let r := enhancePlacesInList revGeo e.2 lookups
    if r.2.2 then (e.1, r.1) :: rest
    else (e.1, r.1) :: enhanceRealPlacesWithAddresses revGeo rest r.2.1

/-- `getRealisticBusinessNames(categoryKey, areaInfo)`. -/
def getRealisticBusinessNames (categoryKey : String) (areaInfo : AddrInfo) : List String :=
  let city := match areaInfo.city with
    | some c => if c = "" then "City" else c
    | none => "City"
  let cityFirst := (city.splitOn " ").headD ""
  if categoryKey = "restaurant" then
    [ cityFirst ++ " Dhaba", "Royal Restaurant", "Punjabi Tadka", "South Indian Corner"
    , "Biryani House", "Family Restaurant", "Hotel " ++ cityFirst, "Spice Garden"
    , "Maharaja Restaurant", "Golden Palace", "Taste of India", "Local Kitchen" ]
  else if categoryKey = "cafe" then
    [ "Chai Point " ++ cityFirst, "Coffee Day", "Brew & Beans", "Tea Junction"
    , "Cafe Mocha", cityFirst ++ " Coffee House", "Bean There", "Espresso Corner"
    , "Tea Time Cafe", "Coffee Culture", "Barista Cafe", "Steam & Beans" ]
  else if categoryKey = "lodging" then
    [ "Hotel " ++ cityFirst, "OYO Rooms", "Guest House", "Lodge Palace"
    , cityFirst ++ " Inn", "Comfort Stay", "Budget Hotel", "Traveler\u0027s Rest"
    , "City Hotel", "Royal Lodge", "Business Hotel", "Tourist Inn" ]
  else if categoryKey = "gas_station" then
    [ "Indian Oil Petrol Pump", "HP Petrol Station", "Bharat Petroleum"
    , "Reliance Petrol Pump", "Shell Station", "Fuel Station " ++ cityFirst
    , "Petrol Bunk", "Energy Station" ]
  else if categoryKey = "shopping" then
    [ cityFirst ++ " Market", "Big Bazaar", "Reliance Fresh", "More Supermarket"
    , "Local Market", "City Mall", "Super Market", "General Store"
    , "Kirana Store", "Provision Store", "Mini Mart", "Shopping Center" ]
  else if categoryKey = "hospital" then
    [ cityFirst ++ " Hospital", "City Clinic", "Health Center", "Medical Center"
    , "Multispecialty Hospital", "Government Hospital", "Nursing Home"
    , "Apollo Clinic", "Max Healthcare", "Fortis Clinic" ]
  else if categoryKey = "bank" then
    [ "State Bank of India", "HDFC Bank", "ICICI Bank", "Axis Bank"
    , "Punjab National Bank", "Bank of Baroda", "Canara Bank", "Union Bank"
    , "Yes Bank", "Kotak Bank", "ATM Center" ]
  else if categoryKey = "transport" then
    [ cityFirst ++ " Railway Station", "Bus Stand", "Metro Station", "Auto Stand"
    , "Taxi Stand", "Bus Terminal", "Transport Hub", "ISBT " ++ cityFirst ]
  else if categoryKey = "entertainment" then
    [ cityFirst ++ " Park", "City Garden", "PVR Cinemas", "INOX"
    , "Fun City", "Entertainment Zone", "Amusement Park", "Recreation Center" ]
  else
    [ cityFirst ++ " " ++ categoryKey, "Local " ++ categoryKey ]

/-- `generateAreaBasedAddress(areaInfo, index)`; consumes one
`Math.random()` value (the house number). -/
def generateAreaBasedAddress (random : ℕ → ℚ) (k : ℕ) (areaInfo : AddrInfo)
    (index : ℕ) : String :=
  let houseNo : ℤ := ⌊random k * 999⌋ + 1
  let streets := ["Main Road", "Station Road", "Market Road", "Gandhi Road", "Nehru Street", "MG Road"]
  let areas := ["City Center", "Market Area", "Station Area", "Civil Lines", "Model Town"]
  let street := streets.getD (index % streets.length) ""
  let area := areas.getD (index % areas.length) ""
  let city := match areaInfo.city with
    | some c => if c = "" then "City" else c
    | none => "City"
  toString houseNo ++ ", " ++ street ++ ", " ++ area ++ ", " ++ city

/-- `generateRealisticPhone()`; consumes two `Math.random()` values. -/
def generateRealisticPhone (random : ℕ → ℚ) (k : ℕ) : String :=
  let pfxs := ["+91-98", "+91-99", "+91-97", "+91-96", "+91-95"]
  let pfx := pfxs.getD (⌊random k * (pfxs.length : ℚ)⌋).toNat ""
  let number : ℤ := ⌊random (k + 1) * 90000000⌋ + 10000000
  pfx ++ (toString number).take 8

/-- `generateRealisticOpeningHours(categoryKey)`; consumes one
`Math.random()` value. -/
def generateRealisticOpeningHours (random : ℕ → ℚ) (k : ℕ) (categoryKey : String) : String :=
  let schedules :=
    if categoryKey = "restaurant" then ["9:00 AM - 11:00 PM", "11:00 AM - 10:30 PM", "8:00 AM - 10:00 PM"]
    else if categoryKey = "cafe" then ["7:00 AM - 10:00 PM", "8:00 AM - 9:00 PM", "6:00 AM - 11:00 PM"]
    else if categoryKey = "lodging" then ["24 Hours", "Check-in: 2:00 PM, Check-out: 12:00 PM"]
    else if categoryKey = "gas_station" then ["24 Hours", "6:00 AM - 10:00 PM"]
    else if categoryKey = "shopping" then ["9:00 AM - 9:00 PM", "10:00 AM - 8:00 PM", "8:00 AM - 10:00 PM"]
    else if categoryKey = "hospital" then ["24 Hours", "9:00 AM - 6:00 PM", "8:00 AM - 8:00 PM"]
    else if categoryKey = "bank" then ["10:00 AM - 4:00 PM", "9:30 AM - 3:30 PM", "10:00 AM - 5:00 PM"]
    else if categoryKey = "transport" then ["24 Hours", "5:00 AM - 11:00 PM"]
    else if categoryKey = "entertainment" then ["10:00 AM - 10:00 PM", "9:00 AM - 9:00 PM", "11:00 AM - 11:00 PM"]
    else ["9:00 AM - 9:00 PM"]
  schedules.getD (⌊random k * (schedules.length : ℚ)⌋).toNat ""

/-- Zero-padding for the fractional digits of `toFixed`. -/
def padZeros (digits : ℕ) (s : String) : String :=
  (List.replicate (digits - s.length) '0').asString ++ s

/-- `x.toFixed(digits)` (sign handling of rounding ties simplified; the ids
it feeds are opaque strings). -/
def toFixed (digits : ℕ) (q : ℚ) : String :=
  let p : ℤ := (10 : ℤ) ^ digits
  let n : ℤ := round (q * (p : ℚ))
  let sign := if n < 0 then "-" else ""
  let m := n.natAbs
  let pn := p.toNat
  sign ++ toString (m / pn) ++ "." ++ padZeros digits (toString (m % pn))

/-- `name.toLowerCase().replace(/[^a-z0-9]/g, '')`. -/
def alnumLower (s : String) : String :=
  ((s.toLower).toList.filter (fun c => ('a' ≤ c ∧ c ≤ 'z') ∨ c.isDigit)).asString

/-- One place of `generateRealisticPlacesForCategory`'s loop, at index `i`,
consuming the eight `Math.random()` values from cursor `k` in source order
(angle, distance, house number, phone prefix, phone number, website chance,
opening hours, rating). -/
def verifiedPlaceAt (ops : MathOps ℚ) (random : ℕ → ℚ) (k : ℕ)
    (categoryKey : String) (category : Category) (centerLat centerLng radius : ℚ)
    (areaInfo : AddrInfo) (businessNames : List String) (i : ℕ) : Place :=
  let maxPlaces : ℕ := 8
  let angle := ((i : ℚ) / (maxPlaces : ℚ)) * 2 * ops.pi + (random k - 0.5) * 0.5
  let dist := random (k + 1) * radius * 0.8 + 0.5
  let latOffset := dist / 111.32 * ops.cos angle
  let lngOffset := dist / (111.32 * ops.cos (centerLat * ops.pi / 180)) * ops.sin angle
  let placeLat := centerLat + latOffset
  let placeLng := centerLng + lngOffset
  let actualDistance := calculateDistance ops centerLat centerLng placeLat placeLng
  let businessName := businessNames.getD (i % businessNames.length) ""
  let address := generateAreaBasedAddress random (k + 2) areaInfo i
  { id := "verified_" ++ categoryKey ++ "_" ++ toFixed 4 centerLat ++ "_" ++
      toFixed 4 centerLng ++ "_" ++ toString i,
    name := businessName,
    category := categoryKey, categoryName := category.name, icon := category.icon,
    lat := placeLat, lng := placeLng,
    distance := ((round (actualDistance * 100) : ℤ) : ℚ) / 100,
    address := address,
    phone := some (generateRealisticPhone random (k + 3)),
    website := if random (k + 5) > 0.7 then
        some ("https://www." ++ alnumLower businessName ++ ".com") else none,
    opening_hours := some (generateRealisticOpeningHours random (k + 6) categoryKey),
    rating := ((round ((random (k + 7) * 1.5 + 3.5) * 10) : ℤ) : ℚ) / 10,
    type := "verified_mock",
    verified := true,
    city := areaInfo.city, state := areaInfo.state }

/-- The 8-iteration loop of `generateRealisticPlacesForCategory`. -/
def verifiedPlacesLoop (ops : MathOps ℚ) (random : ℕ → ℚ) (categoryKey : String)
    (category : Category) (centerLat centerLng radius : ℚ) (areaInfo : AddrInfo)
    (businessNames : List String) : ℕ → ℕ → ℕ → List Place
  | _, _, 0 => []
  | i, k, n + 1 =>
    verifiedPlaceAt ops random k categoryKey category centerLat centerLng radius
        areaInfo businessNames i ::
      verifiedPlacesLoop ops random categoryKey category centerLat centerLng radius
        areaInfo businessNames (i + 1) (k + 8) n

/-- `generateRealisticPlacesForCategory(...)`: 8 synthesized places, sorted
by distance; returns the advanced random cursor. -/
def generateRealisticPlacesForCategory (ops : MathOps ℚ) (random : ℕ → ℚ) (k : ℕ)
    (categoryKey : String) (category : Category) (centerLat centerLng radius : ℚ)
    (areaInfo : AddrInfo) : List Place × ℕ :=
  let businessNames := getRealisticBusinessNames categoryKey areaInfo
  (sortByDistance
    (verifiedPlacesLoop ops random categoryKey category centerLat centerLng radius
      areaInfo businessNames 0 k 8),
    k + 64)

/-- The per-category loop of `generateVerifiedMockPlaces`. -/
def genVerifiedCategories (ops : MathOps ℚ) (random : ℕ → ℚ)
    (lat lng radius : ℚ) (areaInfo : AddrInfo) :
    List (String × Category) → ℕ → List (String × List Place) × ℕ
  | [], k => ([], k)
  | e :: rest, k =>
    let r := generateRealisticPlacesForCategory ops random k e.1 e.2 lat lng radius areaInfo
    let r2 := genVerifiedCategories ops random lat lng radius areaInfo rest r.2
    ((e.1, r.1) :: r2.1, r2.2)

/-- `place.city = info.city || place.city` and friends of the refinement
pass. -/
def jsOrOpt (a b : Option String) : Option String :=
  match a with
  | some s => if s = "" then b else some s
  | none => b

/-- Apply one cached reverse-geocode result in `refineVerifiedMockAddresses`. -/
def applyRefine (info : Option AddrInfo) (p : Place) : Place :=
  match info with
  | some i =>
    match i.address with
    | some addr =>
      if addr = "" then p
      else
        { p with
          address := addr
          city := jsOrOpt i.city p.city
          state := jsOrOpt i.state p.state
          country := jsOrOpt i.country p.country }
    | none => p
  | none => p

/-- The inner loop of `refineVerifiedMockAddresses`: at most 2 places per
category; the boolean reports the early `return` at the 12-lookup cap. -/
def refineCategoryPlaces (revGeo : ℚ → ℚ → Option AddrInfo) :
    List Place → ℕ → ℕ → List Place × ℕ × Bool
  | [], lookups, _ => ([], lookups, false)
  | p :: rest, lookups, i =>
    if i ≥ 2 then (p :: rest, lookups, false)
    else if lookups ≥ 12 then (p :: rest, lookups, true)
    else
      let p2 := applyRefine (revGeo p.lat p.lng) p
      let r := refineCategoryPlaces revGeo rest (lookups + 1) (i + 1)
      (p2 :: r.1, r.2)

/-- `refineVerifiedMockAddresses(verifiedPlaces)`: upgrade the first two
places of each category with a cached reverse-geocoded address, at most 12
lookups overall (the cap ends the whole pass). -/
def refineVerifiedMockAddresses (revGeo : ℚ → ℚ → Option AddrInfo) :
    List (String × List Place) → ℕ → List (String × List Place)
  | [], _ => []
  | e :: rest, lookups =>
    let r := refineCategoryPlaces revGeo e.2 lookups 0
    if r.2.2 then (e.1, r.1) :: rest
    else (e.1, r.1) :: refineVerifiedMockAddresses revGeo rest r.2.1

/-- `generateVerifiedMockPlaces(lat, lng, radius)`: resolve the area label
(the raced reverse geocode; on failure the generic labels), generate every
category, then refine addresses. `areaRes` is the raced reverse-geocode
outcome; `revGeo` is the cached lookup oracle. -/
def generateVerifiedMockPlaces (ops : MathOps ℚ) (random : ℕ → ℚ) (k : ℕ)
    (revGeo : ℚ → ℚ → Option AddrInfo) (areaRes : Except String AddrInfo)
    (lat lng radius : ℚ) : List (String × List Place) × ℕ :=
  let areaInfo :=
    match areaRes with
    | .ok a => a
    | .error _ =>
      { city := some "Unknown City", state := some "Unknown State", country := some "India" }
  let r := genVerifiedCategories ops random lat lng radius areaInfo PLACE_CATEGORIES k
  (refineVerifiedMockAddresses revGeo r.1 0, r.2)

/-- `fetchNearbyPlaces(lat, lng, radius)`: start the verified mock
generation, race the Overpass aggregation against the 3 s timer (`raceRes`
is `error` when the timer wins), fall back to the mock data on timeout or
when no live place was found, otherwise enhance the live addresses and merge
with the mock data. The two `Math.random` streams model the two concurrent
tasks' draws from the shared generator. Every path returns a result: no
rejection escapes to the caller. -/
def fetchNearbyPlaces (ops : MathOps ℚ) (randomMock randomReal : ℕ → ℚ)
    (revGeo : ℚ → ℚ → Option AddrInfo) (areaRes : Except String AddrInfo)
    (serverReplies : List (Option (List OSMElement))) (raceRes : Except String Unit)
    (lat lng radius : ℚ) : List (String × List Place) :=
  let verifiedMock := (generateVerifiedMockPlaces ops randomMock 0 revGeo areaRes lat lng radius).1
  match raceRes with
  | .error _ => verifiedMock
  | .ok _ =>
    let realPlaces := (fetchRealPlacesFromOverpass ops randomReal lat lng radius serverReplies 0).1
    let totalRealPlaces : ℕ := (realPlaces.map (fun e => e.2.length)).sum
    if totalRealPlaces > 0 then
      mergeRealAndMockData (enhanceRealPlacesWithAddresses revGeo realPlaces 0) verifiedMock
    else verifiedMock

/-- The start point (28.6, 77.2) of the claim's concrete route scenario. -/
def cexStart : RoutePoint := { lat := 28.6, lng := 77.2 }

/-- The destination (28.7, 77.3) of the claim's concrete route scenario. -/
def cexDest : RoutePoint := { lat := 28.7, lng := 77.3, name := "Destination" }

/-- A live place used in counterexamples and witnesses. -/
def cexReal1 : Place :=
  { id := "osm_restaurant_1", name := "A", category := "restaurant",
    categoryName := "Restaurants & Food", icon := "🍽️",
    lat := 10, lng := 10, distance := 1, address := "addr", type := "osm" }

/-- A second live place 0.001 degrees away from `cexReal1` on each axis. -/
def cexReal2 : Place :=
  { id := "osm_restaurant_2", name := "B", category := "restaurant",
    categoryName := "Restaurants & Food", icon := "🍽️",
    lat := 10.001, lng := 10.001, distance := 2, address := "addr", type := "osm" }

/-- A synthetic place far away from both live counterexample places. -/
def cexMockFar : Place :=
  { id := "mock_restaurant_1", name := "M", category := "restaurant",
    categoryName := "Restaurants & Food", icon := "🍽️",
    lat := 20, lng := 20, distance := 3, address := "addr", type := "mock" }

end NPF

namespace NPF

/-! ### Helper lemmas about the merge engine -/

theorem lookupPlaces_map_self {β : Type} (l : List (String × β)) (f : String → List Place)
    (c : String) :
    lookupPlaces (l.map (fun e => (e.1, f e.1))) c = [] ∨
      lookupPlaces (l.map (fun e => (e.1, f e.1))) c = f c := by
  induction l with
  | nil => exact Or.inl rfl
  | cons a t ih =>
    cases h : (c == a.1) with
    | true =>
      right
      have hc : c = a.1 := eq_of_beq h
      subst hc
      simp [lookupPlaces, List.lookup]
    | false =>
      simpa [lookupPlaces, List.lookup, h] using ih

theorem lookupPlaces_map_of_mem {β : Type} (l : List (String × β)) (f : String → List Place)
    (c : String) (hc : c ∈ l.map Prod.fst) :
    lookupPlaces (l.map (fun e => (e.1, f e.1))) c = f c := by
  induction l with
  | nil => simp at hc
  | cons a t ih =>
    cases h : (c == a.1) with
    | true =>
      have hc2 : c = a.1 := eq_of_beq h
      subst hc2
      simp [lookupPlaces, List.lookup]
    | false =>
      have hne : c ≠ a.1 := by
        intro heq
        rw [heq, beq_self_eq_true] at h
        exact Bool.true_eq_false.mp h
      have ht : c ∈ t.map Prod.fst := by
        have hd : c = a.1 ∨ c ∈ t.map Prod.fst := by simpa using hc
        rcases hd with h1 | h1
        · exact absurd h1 hne
        · exact h1
      simpa [lookupPlaces, List.lookup, h] using ih ht

theorem nearB_eq_false_iff (r p : Place) :
    nearB r p = false ↔ ¬(|r.lat - p.lat| < 0.002 ∧ |r.lng - p.lng| < 0.002) := by
  simp [nearB]

theorem mem_of_mem_mergeCategory {p : Place} {real mock : List Place}
    (hp : p ∈ mergeCategory real mock) :
    p ∈ real ∨ (p ∈ mock ∧ real.any (fun r => nearB r p) = false) := by
  simp only [mergeCategory] at hp
  have h1 := List.mem_of_mem_take hp
  rw [sortByDistance, List.mem_insertionSort] at h1
  by_cases hz : (if real.length < 6 then
      real ++ (mock.filter (fun m => !(real.any (fun r => nearB r m)))).take (6 - real.length)
    else real).length = 0
  · rw [if_pos hz] at h1
    by_cases h6 : real.length < 6
    · rw [if_pos h6] at hz
      have hreal : real = [] := by
        rcases List.append_eq_nil.mp (List.length_eq_zero.mp hz) with ⟨h, _⟩
        exact h
      subst hreal
      exact Or.inr ⟨h1, rfl⟩
    · rw [if_neg h6] at hz
      omega
  · rw [if_neg hz] at h1
    by_cases h6 : real.length < 6
    · rw [if_pos h6] at h1
      rcases List.mem_append.mp h1 with h | h
      · exact Or.inl h
      · have h' := List.mem_of_mem_take h
        have hm := List.mem_filter.mp h'
        refine Or.inr ⟨hm.1, ?_⟩
        have := hm.2
        rwa [Bool.not_eq_true'] at this
    · rw [if_neg h6] at h1
      exact Or.inl h1

/-! ### C1 -/

/-- Claim C1: for every category, in the per-category list returned by
`mergeRealAndMockData` no two entries lie within 0.002 degrees of each other
on both axes. Refuted: the proximity filter only compares synthetic places
against live places, so two live places may be arbitrarily close. Here two
live restaurants 0.001 degrees apart both survive the merge. -/
theorem C1_merge_dedup_cex :
    ¬ ClaimSeparated
      (lookupPlaces (mergeRealAndMockData [("restaurant", [cexReal1, cexReal2])] []) "restaurant") := by
  norm_num [ClaimSeparated, mergeRealAndMockData, PLACE_CATEGORIES, mergeCategory,
    sortByDistance, List.insertionSort, List.orderedInsert, leDist, lookupPlaces,
    List.lookup, cexReal1, cexReal2, abs_lt]

/-- Claim C1 (amended): every entry of a merged per-category list is either a
live entry of that category, or a synthetic entry that is not within 0.002
degrees (on both axes) of any live entry of that category. -/
theorem C1_merge_dedup_amended (realData mockData : List (String × List Place))
    (c : String) (p : Place)
    (hp : p ∈ lookupPlaces (mergeRealAndMockData realData mockData) c) :
    p ∈ lookupPlaces realData c ∨
      (p ∈ lookupPlaces mockData c ∧
        ∀ r ∈ lookupPlaces realData c,
          ¬(|r.lat - p.lat| < 0.002 ∧ |r.lng - p.lng| < 0.002)) := by
  rcases lookupPlaces_map_self PLACE_CATEGORIES
      (fun k => mergeCategory (lookupPlaces realData k) (lookupPlaces mockData k)) c with h | h
  · rw [mergeRealAndMockData] at hp
    rw [h] at hp
    exact absurd hp (List.not_mem_nil p)
  · rw [mergeRealAndMockData] at hp
    rw [h] at hp
    rcases mem_of_mem_mergeCategory hp with h' | ⟨hmem, hany⟩
    · exact Or.inl h'
    · refine Or.inr ⟨hmem, fun r hr => ?_⟩
      have := (List.any_eq_false).mp hany r hr
      rw [Bool.not_eq_true] at this
      exact (nearB_eq_false_iff r p).mp this

/-- Witness for the amended C1 theorem: with one live restaurant and one far
synthetic restaurant, the merged restaurant list contains the synthetic place
and the amended disjunction holds for it. -/
theorem C1_merge_dedup_amended_witness :
    cexMockFar ∈ lookupPlaces [("restaurant", [cexReal1])] "restaurant" ∨
      (cexMockFar ∈ lookupPlaces [("restaurant", [cexMockFar])] "restaurant" ∧
        ∀ r ∈ lookupPlaces [("restaurant", [cexReal1])] "restaurant",
          ¬(|r.lat - cexMockFar.lat| < 0.002 ∧ |r.lng - cexMockFar.lng| < 0.002)) :=
  C1_merge_dedup_amended [("restaurant", [cexReal1])] [("restaurant", [cexMockFar])]
    "restaurant" cexMockFar (by
      norm_num [mergeRealAndMockData, PLACE_CATEGORIES, mergeCategory, sortByDistance,
        List.insertionSort, List.orderedInsert, leDist, lookupPlaces, List.lookup,
        nearB, cexReal1, cexMockFar])

/-! ### C2 -/

theorem sorted_mergeCategory (real mock : List Place) :
    (mergeCategory real mock).Sorted leDist := by
  simp only [mergeCategory]
  exact (List.sorted_insertionSort leDist _).sublist (List.take_sublist 10 _)

theorem length_mergeCategory (real mock : List Place) :
    (mergeCategory real mock).length =
      min 10 (max real.length
        (min 6 (real.length +
          (mock.filter (fun m => !(real.any (fun r => nearB r m)))).length))) := by
  simp only [mergeCategory]
  rw [List.length_take, sortByDistance, List.length_insertionSort]
  by_cases h6 : real.length < 6
  · rw [if_pos h6]
    by_cases hz :
        (real ++ (mock.filter (fun m => !(real.any (fun r => nearB r m)))).take (6 - real.length)).length = 0
    · rw [if_pos hz]
      rw [List.length_append, List.length_take] at hz
      have hr0 : real.length = 0 := by omega
      have hreal : real = [] := List.length_eq_zero.mp hr0
      have hfilter : mock.filter (fun m => !(real.any (fun r => nearB r m))) = mock := by
        subst hreal
        exact List.filter_eq_self.mpr (fun a _ => by simp)
      rw [hfilter] at hz ⊢
      omega
    · rw [if_neg hz]
      rw [List.length_append, List.length_take] at hz ⊢
      omega
  · rw [if_neg h6]
    have : real.length ≠ 0 := by omega
    rw [if_neg this]
    omega

/-- Claim C2: for every category, with `liveCount` live places and
`syntheticAvailable` synthetic places surviving the 0.002-degree proximity
rule, the merged per-category list has length
`min(10, max(liveCount, min(6, liveCount + syntheticAvailable)))` and is
sorted ascending by distance. -/
theorem C2_merge_count_sorted (realData mockData : List (String × List Place))
    (c : String) (hc : c ∈ categoryKeys) :
    let liveList := lookupPlaces realData c
    let liveCount := liveList.length
    let syntheticAvailable :=
      ((lookupPlaces mockData c).filter
        (fun m => !(liveList.any (fun r => nearB r m)))).length
    let out := lookupPlaces (mergeRealAndMockData realData mockData) c
    out.length = min 10 (max liveCount (min 6 (liveCount + syntheticAvailable))) ∧
      out.Sorted leDist := by
  intro liveList liveCount syntheticAvailable out
  have hout : out = mergeCategory (lookupPlaces realData c) (lookupPlaces mockData c) :=
    lookupPlaces_map_of_mem PLACE_CATEGORIES
      (fun k => mergeCategory (lookupPlaces realData k) (lookupPlaces mockData k)) c hc
  rw [hout]
  exact ⟨length_mergeCategory _ _, sorted_mergeCategory _ _⟩

/-- Witness for C2 at a concrete input: one live restaurant, no synthetic
supply; the merged restaurant list has the predicted length and is sorted. -/
theorem C2_merge_count_sorted_witness :
    (lookupPlaces (mergeRealAndMockData [("restaurant", [cexReal1])] []) "restaurant").length =
      min 10 (max (lookupPlaces [("restaurant", [cexReal1])] "restaurant").length
        (min 6 ((lookupPlaces [("restaurant", [cexReal1])] "restaurant").length +
          ((lookupPlaces ([] : List (String × List Place)) "restaurant").filter
            (fun m => !((lookupPlaces [("restaurant", [cexReal1])] "restaurant").any
              (fun r => nearB r m)))).length))) ∧
      (lookupPlaces (mergeRealAndMockData [("restaurant", [cexReal1])] []) "restaurant").Sorted leDist :=
  C2_merge_count_sorted [("restaurant", [cexReal1])] [] "restaurant" (by decide)

/-! ### C7 -/

theorem shopOrTourism_eq_none_iff (tags : Tags) :
    shopOrTourismCategory tags = none ↔
      (truthyLookup tags "shop" = none ∧
        (truthyLookup tags "tourism").all (fun t => (tourismMappings.lookup t).isNone) = true) := by
  unfold shopOrTourismCategory
  cases hs : truthyLookup tags "shop" with
  | some s => simp
  | none =>
    cases htour : truthyLookup tags "tourism" with
    | some t => simp [Option.isNone_iff_eq_none]
    | none => simp

/-- Claim C7: a raw element whose tags match no rule (no exact category-table
match and no entry of the amenity/shop/tourism fallback dictionaries) is
discarded. Refuted: an element tagged `shop=bakery` matches no rule, yet the
shop block's default assigns it the `shopping` category. -/
theorem C7_discard_cex :
    MatchedByNoRule [("shop", "bakery")] ∧
      determineCategoryFromTags (some [("shop", "bakery")]) ≠ none := by
  decide

/-- Claim C7 (amended): a raw element is discarded (mapped to no category) if
and only if its tags have no exact category-table match, no amenity
dictionary entry, no truthy `shop` tag at all (any truthy `shop` value
defaults to `shopping`), and no tourism dictionary entry. -/
theorem C7_discard_amended (tags : Tags) :
    determineCategoryFromTags (some tags) = none ↔
      ((∀ e ∈ PLACE_CATEGORIES, ∀ t ∈ e.2.tags, matchesTag tags t = false) ∧
        (truthyLookup tags "amenity").all (fun a => (amenityMappings.lookup a).isNone) = true ∧
        truthyLookup tags "shop" = none ∧
        (truthyLookup tags "tourism").all (fun t => (tourismMappings.lookup t).isNone) = true) := by
  unfold determineCategoryFromTags
  cases hfind : PLACE_CATEGORIES.find? (fun e => e.2.tags.any (fun t => matchesTag tags t)) with
  | some e =>
    simp only [hfind]
    constructor
    · intro h
      exact absurd h (by simp)
    · rintro ⟨h1, -, -, -⟩
      have hmem := List.mem_of_find?_eq_some hfind
      have hpred := List.find?_some hfind
      simp only [List.any_eq_true] at hpred
      obtain ⟨t, ht, hmt⟩ := hpred
      rw [h1 e hmem t ht] at hmt
      exact absurd hmt (by simp)
  | none =>
    have hnone : ∀ e ∈ PLACE_CATEGORIES, ∀ t ∈ e.2.tags, matchesTag tags t = false := by
      intro e he t ht
      have hne := List.find?_eq_none.mp hfind e he
      simp only [List.any_eq_true, not_exists] at hne
      rcases Bool.eq_false_or_eq_true (matchesTag tags t) with h | h
      · exact absurd ⟨ht, h⟩ (hne t)
      · exact h
    cases hamen : truthyLookup tags "amenity" with
    | some a =>
      cases hmap : amenityMappings.lookup a with
      | some ck => simp [hfind, hamen, hmap, hnone]
      | none =>
        simp [hfind, hamen, hmap, hnone, shopOrTourism_eq_none_iff]
        intro _ _ a b hab x y hxy
        exact hnone (a, b) hab (x, y) hxy
    | none =>
      simp [hfind, hamen, hnone, shopOrTourism_eq_none_iff]
      intro _ _ a b hab x y hxy
      exact hnone (a, b) hab (x, y) hxy

/-! ### C6 -/

/-- Claim C6: over the real-number semantics of the source's arithmetic, the
Haversine distance is symmetric and vanishes on equal coordinates, for all
valid coordinates. -/
theorem C6_distance_symm_zero (lat1 lng1 lat2 lng2 : ℝ)
    (hlat1 : -90 ≤ lat1 ∧ lat1 ≤ 90) (hlng1 : -180 ≤ lng1 ∧ lng1 ≤ 180)
    (hlat2 : -90 ≤ lat2 ∧ lat2 ≤ 90) (hlng2 : -180 ≤ lng2 ∧ lng2 ≤ 180) :
    calculateDistance realOps lat1 lng1 lat2 lng2 =
        calculateDistance realOps lat2 lng2 lat1 lng1 ∧
      calculateDistance realOps lat1 lng1 lat1 lng1 = 0 := by
  constructor
  · simp only [calculateDistance]
    have e1 : (lat1 - lat2) * realOps.pi / 180 / 2 =
        -((lat2 - lat1) * realOps.pi / 180 / 2) := by ring
    have e2 : (lng1 - lng2) * realOps.pi / 180 / 2 =
        -((lng2 - lng1) * realOps.pi / 180 / 2) := by ring
    have s1 : realOps.sin ((lat1 - lat2) * realOps.pi / 180 / 2) *
        realOps.sin ((lat1 - lat2) * realOps.pi / 180 / 2) =
        realOps.sin ((lat2 - lat1) * realOps.pi / 180 / 2) *
          realOps.sin ((lat2 - lat1) * realOps.pi / 180 / 2) := by
      rw [e1]
      show Real.sin _ * Real.sin _ = Real.sin _ * Real.sin _
      rw [Real.sin_neg, neg_mul_neg]
    have s2 : realOps.sin ((lng1 - lng2) * realOps.pi / 180 / 2) *
        realOps.sin ((lng1 - lng2) * realOps.pi / 180 / 2) =
        realOps.sin ((lng2 - lng1) * realOps.pi / 180 / 2) *
          realOps.sin ((lng2 - lng1) * realOps.pi / 180 / 2) := by
      rw [e2]
      show Real.sin _ * Real.sin _ = Real.sin _ * Real.sin _
      rw [Real.sin_neg, neg_mul_neg]
    have ha : realOps.sin ((lat2 - lat1) * realOps.pi / 180 / 2) *
          realOps.sin ((lat2 - lat1) * realOps.pi / 180 / 2) +
        realOps.cos (lat1 * realOps.pi / 180) * realOps.cos (lat2 * realOps.pi / 180) *
          realOps.sin ((lng2 - lng1) * realOps.pi / 180 / 2) *
          realOps.sin ((lng2 - lng1) * realOps.pi / 180 / 2) =
        realOps.sin ((lat1 - lat2) * realOps.pi / 180 / 2) *
          realOps.sin ((lat1 - lat2) * realOps.pi / 180 / 2) +
        realOps.cos (lat2 * realOps.pi / 180) * realOps.cos (lat1 * realOps.pi / 180) *
          realOps.sin ((lng1 - lng2) * realOps.pi / 180 / 2) *
          realOps.sin ((lng1 - lng2) * realOps.pi / 180 / 2) := by
      rw [s1]
      linear_combination
        (-(realOps.cos (lat1 * realOps.pi / 180) * realOps.cos (lat2 * realOps.pi / 180))) * s2
    rw [ha]
  · simp only [calculateDistance]
    have e0 : (lat1 - lat1) * realOps.pi / 180 / 2 = 0 := by ring
    have e0' : (lng1 - lng1) * realOps.pi / 180 / 2 = 0 := by ring
    rw [e0, e0']
    norm_num [realOps, realAtan2, Real.sin_zero, Real.sqrt_zero, Real.sqrt_one,
      Real.arctan_zero]

/-- Witness for C6 at the concrete valid coordinates (0,0) and (1,1). -/
theorem C6_distance_symm_zero_witness :
    calculateDistance realOps 0 0 1 1 = calculateDistance realOps 1 1 0 0 ∧
      calculateDistance realOps 0 0 0 0 = 0 :=
  C6_distance_symm_zero 0 0 1 1 (by norm_num) (by norm_num) (by norm_num) (by norm_num)

/-! ### C5 -/

/-- Claim C5: the pseudo-random place generator is deterministic in
`(lat, lng, categoryKey, radius)`: its output does not depend on the ambient
`Math.random` stream (the only environmental input), so two calls with
identical arguments return identical place lists in every field. Proved for
the per-category generator and for the full category-keyed generator, for
every interpretation of the trigonometric operations. -/
theorem C5_generator_deterministic (ops : MathOps ℚ) (random₁ random₂ : ℕ → ℚ)
    (lat lng : ℚ) (categoryKey : String) (category : Category)
    (names : List String) (radius : ℚ) :
    generateEnhancedMockData ops random₁ lat lng categoryKey category names radius =
        generateEnhancedMockData ops random₂ lat lng categoryKey category names radius ∧
      getMockPlaces ops random₁ lat lng radius = getMockPlaces ops random₂ lat lng radius :=
  ⟨rfl, rfl⟩

/-! ### C3 -/

/-- Claim C3: with the sensor API supported, the cascade's trace is exactly
Tier A when A succeeds, A then B when only A fails, and A then B then C
otherwise; the promise rejects exactly when all three tiers fail; and no
options object (tier) occurs twice in the trace. The trace order is the call
order, each entry issued only after the previous entry's error callback. -/
theorem C3_location_cascade (sensor : ℕ → SensorReply) (ipReplies : List (Option IpData)) :
    ((getCurrentLocation true sensor ipReplies).1 =
        match sensor 0 with
        | .success .. => [optsHighAccuracy]
        | .failure _ =>
          match sensor 1 with
          | .success .. => [optsHighAccuracy, optsSecondTry]
          | .failure _ => [optsHighAccuracy, optsSecondTry, optsFinalGPS]) ∧
      ((getCurrentLocation true sensor ipReplies).2.isOk = false ↔
        (sensor 0).isFailure = true ∧ (sensor 1).isFailure = true ∧
          (sensor 2).isFailure = true) ∧
      (getCurrentLocation true sensor ipReplies).1.Nodup := by
  cases h0 : sensor 0 with
  | success lat lng acc =>
    simp [getCurrentLocation, h0, SensorReply.isFailure, Except.isOk, Except.toBool]
  | failure c0 =>
    cases h1 : sensor 1 with
    | success lat lng acc =>
      simp [getCurrentLocation, h0, h1, SensorReply.isFailure, Except.isOk, Except.toBool,
        optsHighAccuracy, optsSecondTry]
    | failure c1 =>
      cases h2 : sensor 2 with
      | success lat lng acc =>
        simp [getCurrentLocation, h0, h1, h2, SensorReply.isFailure, Except.isOk,
          Except.toBool, optsHighAccuracy, optsSecondTry, optsFinalGPS]
      | failure c2 =>
        simp [getCurrentLocation, h0, h1, h2, SensorReply.isFailure, Except.isOk,
          Except.toBool, optsHighAccuracy, optsSecondTry, optsFinalGPS]

/-! ### C4 -/

/-- Claim C4: `geocodeAddress` on an empty or whitespace-only input fails
with a not-found error and issues no network request. Refuted: the function
has no input guard, so even the empty string issues the Nominatim search
request (while it does fail with `Address not found` when the provider
returns zero results). -/
theorem C4_geocode_empty_cex :
    ¬((geocodeAddress (.ok []) "").2 = .error "Address not found" ∧
      (geocodeAddress (.ok []) "").1 = []) := by
  rintro ⟨-, h⟩
  simp [geocodeAddress] at h

/-- Claim C4 (amended): for an empty or whitespace-only input,
`geocodeAddress` issues exactly one network request (the Nominatim search
for that input), and when the provider returns zero results it fails with
`Address not found`. -/
theorem C4_geocode_empty_amended (s : String)
    (hs : s.toList.all Char.isWhitespace = true)
    (fetchReply : Except String (List NomSearchResult)) :
    (geocodeAddress fetchReply s).1 = [.nominatimSearch s] ∧
      (fetchReply = .ok [] → (geocodeAddress fetchReply s).2 = .error "Address not found") := by
  refine ⟨rfl, fun h => ?_⟩
  subst h
  rfl

/-- Witness for the amended C4 theorem at the empty string with a provider
returning zero results. -/
theorem C4_geocode_empty_amended_witness :
    (geocodeAddress (.ok []) "").1 = [.nominatimSearch ""] ∧
      (geocodeAddress (.ok ([] : List NomSearchResult)) "").2 = .error "Address not found" :=
  ⟨(C4_geocode_empty_amended "" (by decide) (.ok [])).1,
    (C4_geocode_empty_amended "" (by decide) (.ok [])).2 rfl⟩

/-! ### C8 -/

/-- Claim C8: when both live routing providers fail, the route engine's
result carries the provider tag `"fallback"`. Refuted at the claim's own
scenario (28.6,77.2) to (28.7,77.3) walking: the synthesized fallback route
is tagged `"enhanced_mock"`, not `"fallback"`. -/
theorem C8_route_fallback_cex :
    (fetchRealRoute sampleOps (fun _ => 0) 0 none none cexStart cexDest "walking").source ≠
      "fallback" := by
  have h : (fetchRealRoute sampleOps (fun _ => 0) 0 none none cexStart cexDest "walking").source =
      "enhanced_mock" := rfl
  rw [h]
  decide

/-- Claim C8 (amended): when both live routing providers fail, `fetchRealRoute`
returns the synthesized route: its provider tag is `"enhanced_mock"` (the
fallback tag, distinct from both live provider tags), its step list is
non-empty, the first step is a depart maneuver and the last an arrive
maneuver — for every start, destination, travel mode and environment. -/
theorem C8_route_fallback_amended (ops : MathOps ℚ) (random : ℕ → ℚ) (k : ℕ)
    (start dest : RoutePoint) (mode : String) :
    fetchRealRoute ops random k none none start dest mode =
        generateEnhancedMockRoute ops random k start dest mode ∧
      (fetchRealRoute ops random k none none start dest mode).source = "enhanced_mock" ∧
      (fetchRealRoute ops random k none none start dest mode).steps ≠ [] ∧
      ((fetchRealRoute ops random k none none start dest mode).steps.head?.map
          RouteStep.maneuver) = some "depart" ∧
      ((fetchRealRoute ops random k none none start dest mode).steps.getLast?.map
          RouteStep.maneuver) = some "arrive" := by
  refine ⟨rfl, rfl, ?_, ?_, ?_⟩
  · simp [fetchRealRoute, generateEnhancedMockRoute]
  · simp [fetchRealRoute, generateEnhancedMockRoute]
  · show ((generateEnhancedMockRoute ops random k start dest mode).steps.getLast?.map
      RouteStep.maneuver) = some "arrive"
    simp only [generateEnhancedMockRoute]
    rw [List.getLast?_cons_cons, ← List.cons_append, List.getLast?_append_cons,
      List.getLast?_cons_cons]
    rfl

/-! ### C9 -/

theorem lookup_isSome_of_mem_keys (m : List (String × List Place)) (c : String)
    (h : c ∈ m.map Prod.fst) : (m.lookup c).isSome = true := by
  induction m with
  | nil => simp at h
  | cons a t ih =>
    cases hb : (c == a.1) with
    | true => simp [List.lookup, hb]
    | false =>
      have ht : c ∈ t.map Prod.fst := by
        have hd : c = a.1 ∨ c ∈ t.map Prod.fst := by simpa using h
        rcases hd with h1 | h1
        · rw [h1, beq_self_eq_true] at hb
          exact absurd hb (by simp)
        · exact h1
      simpa [List.lookup, hb] using ih ht

theorem keys_genVerifiedCategories (ops : MathOps ℚ) (random : ℕ → ℚ)
    (lat lng radius : ℚ) (areaInfo : AddrInfo) :
    ∀ (l : List (String × Category)) (k : ℕ),
      ((genVerifiedCategories ops random lat lng radius areaInfo l k).1).map Prod.fst =
        l.map Prod.fst
  | [], _ => rfl
  | e :: rest, k => by
    simp [genVerifiedCategories,
      keys_genVerifiedCategories ops random lat lng radius areaInfo rest]

theorem keys_refineVerifiedMockAddresses (revGeo : ℚ → ℚ → Option AddrInfo) :
    ∀ (m : List (String × List Place)) (lookups : ℕ),
      (refineVerifiedMockAddresses revGeo m lookups).map Prod.fst = m.map Prod.fst
  | [], _ => rfl
  | e :: rest, lookups => by
    simp only [refineVerifiedMockAddresses]
    split
    · simp
    · simp [keys_refineVerifiedMockAddresses revGeo rest]

theorem keys_generateVerifiedMockPlaces (ops : MathOps ℚ) (random : ℕ → ℚ) (k : ℕ)
    (revGeo : ℚ → ℚ → Option AddrInfo) (areaRes : Except String AddrInfo)
    (lat lng radius : ℚ) :
    ((generateVerifiedMockPlaces ops random k revGeo areaRes lat lng radius).1).map Prod.fst =
      categoryKeys := by
  simp [generateVerifiedMockPlaces, keys_refineVerifiedMockAddresses,
    keys_genVerifiedCategories, categoryKeys]

theorem keys_mergeRealAndMockData (a b : List (String × List Place)) :
    (mergeRealAndMockData a b).map Prod.fst = categoryKeys := by
  simp [mergeRealAndMockData, categoryKeys]

/-- Claim C9: `fetchNearbyPlaces` never surfaces an error: for every
environment behavior (mirror failures, timeout, reverse-geocode failure) it
returns a result keyed by every category of the table; and whenever the
Overpass race times out or no live place is found, the result is exactly the
verified synthetic dataset. -/
theorem C9_places_search_total (ops : MathOps ℚ) (randomMock randomReal : ℕ → ℚ)
    (revGeo : ℚ → ℚ → Option AddrInfo) (areaRes : Except String AddrInfo)
    (serverReplies : List (Option (List OSMElement))) (raceRes : Except String Unit)
    (lat lng radius : ℚ) :
    (∀ c ∈ categoryKeys,
      ((fetchNearbyPlaces ops randomMock randomReal revGeo areaRes serverReplies
          raceRes lat lng radius).lookup c).isSome = true) ∧
      ((raceRes.isOk = false ∨
          (((fetchRealPlacesFromOverpass ops randomReal lat lng radius serverReplies 0).1).map
            (fun e => e.2.length)).sum = 0) →
        fetchNearbyPlaces ops randomMock randomReal revGeo areaRes serverReplies
            raceRes lat lng radius =
          (generateVerifiedMockPlaces ops randomMock 0 revGeo areaRes lat lng radius).1) := by
  have hkeys : (fetchNearbyPlaces ops randomMock randomReal revGeo areaRes serverReplies
      raceRes lat lng radius).map Prod.fst = categoryKeys := by
    unfold fetchNearbyPlaces
    cases raceRes with
    | error e => simpa using keys_generateVerifiedMockPlaces ops randomMock 0 revGeo areaRes lat lng radius
    | ok u =>
      simp only
      split
      · exact keys_mergeRealAndMockData _ _
      · exact keys_generateVerifiedMockPlaces ops randomMock 0 revGeo areaRes lat lng radius
  constructor
  · intro c hc
    exact lookup_isSome_of_mem_keys _ c (by rw [hkeys]; exact hc)
  · intro h
    cases hr : raceRes with
    | error e => simp [fetchNearbyPlaces]
    | ok u =>
      rcases h with h | h
      · rw [hr] at h
        simp [Except.isOk, Except.toBool] at h
      · simp [fetchNearbyPlaces, h]

/-- Witness for C9 at a concrete environment where the Overpass race times
out: the result has the restaurant category and equals the synthetic
dataset. -/
theorem C9_places_search_total_witness :
    ((fetchNearbyPlaces sampleOps (fun _ => 0) (fun _ => 0) (fun _ _ => none)
        (.error "Reverse geocoding timeout") [] (.error "Overpass API timeout")
        0 0 10).lookup "restaurant").isSome = true ∧
      fetchNearbyPlaces sampleOps (fun _ => 0) (fun _ => 0) (fun _ _ => none)
          (.error "Reverse geocoding timeout") [] (.error "Overpass API timeout")
          0 0 10 =
        (generateVerifiedMockPlaces sampleOps (fun _ => 0) 0 (fun _ _ => none)
          (.error "Reverse geocoding timeout") 0 0 10).1 :=
  ⟨(C9_places_search_total sampleOps (fun _ => 0) (fun _ => 0) (fun _ _ => none)
      (.error "Reverse geocoding timeout") [] (.error "Overpass API timeout")
      0 0 10).1 "restaurant" (by decide),
    (C9_places_search_total sampleOps (fun _ => 0) (fun _ => 0) (fun _ _ => none)
      (.error "Reverse geocoding timeout") [] (.error "Overpass API timeout")
      0 0 10).2 (Or.inl rfl)⟩

/-! ### C10 -/

/-- Claim C10: for a null, empty or shorter-than-2-characters query,
`getPlaceSuggestions` returns the empty list and issues no network request,
whatever the limit, the bias center, and the provider behavior. -/
theorem C10_suggestions_guard (ops : MathOps ℚ)
    (fetchMain fetchFallback : Except String (List NomPlaceItem))
    (limit : ℕ) (near : Option NearArg) (query : Option String)
    (hq : query = none ∨ ∃ q, query = some q ∧ q.length < 2) :
    getPlaceSuggestions ops fetchMain fetchFallback query limit near = ([], []) := by
  rcases hq with h | ⟨q, h, hlen⟩ <;> subst h
  · rfl
  · simp [getPlaceSuggestions, hlen]

/-- Witness for C10 at the concrete one-character query `"a"`. -/
theorem C10_suggestions_guard_witness :
    getPlaceSuggestions sampleOps (.ok []) (.ok []) (some "a") 15 none = ([], []) :=
  C10_suggestions_guard sampleOps (.ok []) (.ok []) 15 none (some "a")
    (Or.inr ⟨"a", rfl, by decide⟩)

end NPF
